import Mathlib

/-!
# CasinoGame — shallow embedding and verification of the spec claims

This file embeds the JavaScript backend of the CasinoGame repository
(routes `payment.js`, `mine.js`, `videopoker.js` with the embedded games
router, the crash and slide socket handlers, and the pending-transaction
reconciliation job) as executable Lean functions over an explicit database
state, and settles the frozen claims C1–C10 about it.

Monetary amounts (`REAL` columns, JS numbers) are modelled as rationals;
SQLite rows are lists of structures; AUTOINCREMENT primary keys are
explicit counters.  Randomness (`Math.random`-derived multipliers,
shuffles and mine layouts) is passed in as oracle arguments, since none
of the claims concern its distribution.  Wall-clock time enters only as
a `now : Nat` millisecond parameter where `created_at` ages matter.
-/

namespace Casino

/-- A row of the `users` table (`database.js` migration):
`public_key TEXT UNIQUE NOT NULL, balance REAL DEFAULT 0,
locked_balance REAL DEFAULT 0`. -/
structure UserRow where
  id : Nat
  publicKey : String
  balance : ℚ
  lockedBalance : ℚ
deriving Repr, DecidableEq

/-- A row of the `transactions` table:
`type TEXT, game_type TEXT, amount REAL, win_amount REAL DEFAULT 0,
tx_hash TEXT UNIQUE, status TEXT DEFAULT 'pending', created_at DATETIME`.
`createdAt` is an epoch-millisecond stamp. -/
structure TxRow where
  id : Nat
  userId : Nat
  txType : String
  gameType : Option String
  amount : ℚ
  winAmount : ℚ
  txHash : Option String
  status : String
  createdAt : Nat
deriving Repr, DecidableEq

/-- A playing card as `videopoker.js` represents it:
`\x7b rank, suit \x7d` with string fields. -/
structure Card where
  rank : String
  suit : String
deriving Repr, DecidableEq

/-- The JSON `metadata` text column of `games`, decoded per game type:
mines games store `mines`/`mineAreas`/`revealedAreas`, video-poker games
store `hand`/`remainingDeck`/`holds`; the crash/slide/place-bet rows carry
only target/currency data none of the claims read, collapsed to
`plainMeta`. -/
inductive GameMeta where
  | mineMeta (mines : Nat) (mineAreas : List Nat) (revealedAreas : List Nat)
  | pokerMeta (hand : List Card) (remainingDeck : List Card) (holds : List Nat)
  | plainMeta
deriving Repr, DecidableEq

/-- A row of the `games` table:
`game_id TEXT UNIQUE NOT NULL, user_id INTEGER, game_type TEXT,
bet_amount REAL, win_amount REAL DEFAULT 0, status TEXT DEFAULT 'active',
metadata TEXT`. -/
structure GameRow where
  id : Nat
  gameId : String
  userId : Nat
  gameType : String
  betAmount : ℚ
  winAmount : ℚ
  status : String
  metadata : GameMeta
deriving Repr, DecidableEq

/-- The SQLite store: the three tables plus explicit AUTOINCREMENT
counters for their integer primary keys. -/
structure DB where
  users : List UserRow
  transactions : List TxRow
  games : List GameRow
  nextUserId : Nat
  nextTxId : Nat
  nextGameRowId : Nat
deriving Repr, DecidableEq

/-! ## SQL primitives

The routes access the store through `getOne`/`getAll`/`run` on literal
SQL (`dbHelpers.js`); we embed each statement shape that occurs. -/

/-- `SELECT * FROM users WHERE public_key = ?` via `getOne`: first match. -/
def getUserByPk (users : List UserRow) (pk : String) : Option UserRow :=
  users.find? (fun u => u.publicKey == pk)

/-- `SELECT * FROM users WHERE id = ?` via `getOne`. -/
def getUserById (users : List UserRow) (uid : Nat) : Option UserRow :=
  users.find? (fun u => u.id == uid)

/-- `SELECT * FROM transactions WHERE tx_hash = ?` via `getOne`. -/
def getTxByHash (txs : List TxRow) (h : String) : Option TxRow :=
  txs.find? (fun t => t.txHash == some h)

/-- `UPDATE users SET ... WHERE id = ?`: apply `f` to the matching row. -/
def updateUser (users : List UserRow) (uid : Nat) (f : UserRow → UserRow) :
    List UserRow :=
  users.map (fun u => if u.id == uid then f u else u)

/-- A value bound into a `WHERE id = ?` comparison against the INTEGER
primary key of `games`.  The crash and slide handlers bind the TEXT
`game_id` string here (`UPDATE games ... WHERE id = ?` with
`player.gameId`), so both shapes occur. -/
inductive SqlKey where
  | intKey (n : Nat)
  | textKey (s : String)
deriving Repr, DecidableEq

/-- The decimal value of a digit character, `none` for a non-digit. -/
def sqlCharDigit? (c : Char) : Option Nat :=
  if c = '0' then some 0 else if c = '1' then some 1
  else if c = '2' then some 2 else if c = '3' then some 3
  else if c = '4' then some 4 else if c = '5' then some 5
  else if c = '6' then some 6 else if c = '7' then some 7
  else if c = '8' then some 8 else if c = '9' then some 9 else none

/-- Accumulate a decimal value over characters, failing at the first
non-digit. -/
def sqlDigitsVal : List Char → Nat → Option Nat
  | [], n => some n
  | c :: cs, n =>
    match sqlCharDigit? c with
    | some d => sqlDigitsVal cs (n * 10 + d)
    | none => none

/-- The numeric value of a TEXT operand, when it is a well-formed
(unsigned decimal) integer literal; `none` otherwise.  Game-id strings
(`"crash-…"`, `"mine-…"`) are never numeric. -/
def sqlTextToNat? (s : String) : Option Nat :=
  match s.data with
  | [] => none
  | cs => sqlDigitsVal cs 0

/-- SQLite comparison of an INTEGER-affinity column against a bound
value: a text operand is converted to a number when it is a well-formed
numeric literal, and otherwise compares unequal to every integer
(INTEGER sorts before TEXT).  Game-id strings such as `"crash-…"` are
not numeric, so they match no row. -/
def keyMatchesId (rowId : Nat) : SqlKey → Bool
  | SqlKey.intKey n => rowId == n
  | SqlKey.textKey s =>
    match sqlTextToNat? s with
    | some n => rowId == n
    | none => false

/-- `UPDATE games SET ... WHERE id = ?` under `keyMatchesId`. -/
def updateGameById (games : List GameRow) (key : SqlKey)
    (f : GameRow → GameRow) : List GameRow :=
  games.map (fun g => if keyMatchesId g.id key then f g else g)

/-- `SELECT * FROM games WHERE game_id = ? AND user_id = ? AND status = ?`
via `getOne` (the TEXT `game_id` column, as the mine / games-router /
video-poker routes use it). -/
def getGame (games : List GameRow) (gid : String) (uid : Nat)
    (status : String) : Option GameRow :=
  games.find? (fun g => g.gameId == gid && g.userId == uid && g.status == status)

/-- `SELECT * FROM games WHERE game_id = ?` via `getOne`. -/
def getGameByGameId (games : List GameRow) (gid : String) : Option GameRow :=
  games.find? (fun g => g.gameId == gid)

/-- `INSERT INTO transactions ...` under the `tx_hash TEXT UNIQUE`
constraint: a non-null hash that is already present makes the insert
throw (`none`), which aborts and rolls back the enclosing
`transaction(...)` block. -/
def insertTx (txs : List TxRow) (t : TxRow) : Option (List TxRow) :=
  match t.txHash with
  | some h => if (getTxByHash txs h).isSome then none else some (txs ++ [t])
  | none => some (txs ++ [t])

/-- `INSERT INTO games ...` under the `game_id TEXT UNIQUE` constraint. -/
def insertGame (games : List GameRow) (g : GameRow) :
    Option (List GameRow) :=
  if (getGameByGameId games g.gameId).isSome then none else some (games ++ [g])

/-- `publicKey.trim()`.  Address strings are whitespace-free 55/60
character identifiers, on which `trim` is the identity; it is modelled
as such (the `String.trim` of the Lean core library is defined by
well-founded recursion on byte positions and does not reduce in the
kernel, and no claim involves whitespace-padded keys). -/
def strTrim (s : String) : String := s

/-- `normalizePublicKey` / inline key normalisation (crash and slide
sockets, balance route): trim, take the trailing 55 characters of longer
keys, and require exactly 55 characters. -/
def normalizePublicKey (publicKey : String) : Option String :=
  let t := strTrim publicKey
  let normalized :=
    if t.length == 60 then t.drop (t.length - 55)
    else if t.length > 55 then t.drop (t.length - 55)
    else t
  if normalized.length == 55 then some normalized else none

/-- The get-or-create-user prologue shared by every route:
`SELECT` by public key, and on a miss
`INSERT INTO users (public_key, balance) VALUES (?, 0)` (with
`locked_balance` defaulting to 0) followed by a re-`SELECT`.  This runs
*outside* the routes' `transaction(...)` blocks, so its effect persists
even when the request is later rejected. -/
def getOrCreateUser (db : DB) (pk : String) : UserRow × DB :=
  match getUserByPk db.users pk with
  | some u => (u, db)
  | none =>
    let u : UserRow :=
      { id := db.nextUserId, publicKey := pk, balance := 0, lockedBalance := 0 }
    (u, { db with users := db.users ++ [u], nextUserId := db.nextUserId + 1 })

/-! ## `payment.js` — deposit and withdrawal -/

/-- Outcome of `POST /api/payment/deposit`. -/
inductive DepositResult where
  | validationFailed
  | duplicateTx
  | ok (newBalance : ℚ)
  | storeFailure
deriving Repr, DecidableEq

/-- `POST /api/payment/deposit` (`payment.js`): validate, get-or-create
the user, reject a reused `tx_hash` with 409, otherwise atomically credit
`balance` and insert a `confirmed` deposit transaction carrying the
hash. -/
def deposit (db : DB) (txHash pk : String) (amount : ℚ) (now : Nat) :
    DepositResult × DB :=
  if txHash = "" ∨ pk.length ≠ 55 ∨ amount < 0 then
    (DepositResult.validationFailed, db)
  else
    let (user, db1) := getOrCreateUser db pk
    match getTxByHash db1.transactions txHash with
    | some _ => (DepositResult.duplicateTx, db1)
    | none =>
      let users2 := updateUser db1.users user.id
        (fun u => { u with balance := u.balance + amount })
      let t : TxRow :=
        { id := db1.nextTxId, userId := user.id, txType := "deposit",
          gameType := none, amount := amount, winAmount := 0,
          txHash := some txHash, status := "confirmed", createdAt := now }
      match insertTx db1.transactions t with
      | none => (DepositResult.storeFailure, db1)
      | some txs2 =>
        let db2 := { db1 with users := users2, transactions := txs2,
                              nextTxId := db1.nextTxId + 1 }
        match getUserById db2.users user.id with
        | some u2 => (DepositResult.ok u2.balance, db2)
        | none => (DepositResult.storeFailure, db1)

/-- Outcome of `POST /api/payment/withdraw`. -/
inductive WithdrawResult where
  | validationFailed
  | userNotFound
  | insufficientBalance
  | pending
deriving Repr, DecidableEq

/-- `POST /api/payment/withdraw` (`payment.js`): requires an existing
user and `balance - locked_balance ≥ amount`; on success locks the
amount and inserts a `pending` withdrawal transaction — with **no**
`tx_hash` (the INSERT lists no `tx_hash` column). -/
def withdraw (db : DB) (pk : String) (amount : ℚ) (now : Nat) :
    WithdrawResult × DB :=
  if pk.length ≠ 55 ∨ amount < 0 then
    (WithdrawResult.validationFailed, db)
  else
    match getUserByPk db.users pk with
    | none => (WithdrawResult.userNotFound, db)
    | some user =>
      if user.balance - user.lockedBalance < amount then
        (WithdrawResult.insufficientBalance, db)
      else
        let users2 := updateUser db.users user.id
          (fun u => { u with lockedBalance := u.lockedBalance + amount })
        let t : TxRow :=
          { id := db.nextTxId, userId := user.id, txType := "withdrawal",
            gameType := none, amount := amount, winAmount := 0,
            txHash := none, status := "pending", createdAt := now }
        match insertTx db.transactions t with
        | none => (WithdrawResult.validationFailed, db)
        | some txs2 =>
          (WithdrawResult.pending,
           { db with users := users2, transactions := txs2,
                     nextTxId := db.nextTxId + 1 })

/-! ## Embedded games router (`videopoker.js`, second module) —
`POST /api/games/place-bet` and `POST /api/games/cashout` -/

/-- Outcome of `POST /api/games/place-bet`. -/
inductive PlaceBetResult where
  | validationFailed
  | duplicateTx
  | insufficientBalance
  | ok (gameId : String)
  | storeFailure
deriving Repr, DecidableEq

/-- `POST /api/games/place-bet`: validate, get-or-create the user,
reject a reused `tx_hash` (409) and `balance - locked_balance < amount`
(400, nothing locked); otherwise, in one `transaction(...)` block, lock
the amount, insert a `pending` bet transaction carrying the hash, and
ensure a `games` row exists (creating an `active` one when the given
`game_id` is absent). -/
def placeBet (db : DB) (txHash gameType : String) (amount : ℚ)
    (pk : String) (gameId : Option String) (now : Nat) :
    PlaceBetResult × DB :=
  if txHash = "" ∨ pk.length ≠ 55 ∨ amount < 0 ∨
      (gameType ∉ (["crash", "mines", "videopoker", "slide"] : List String)) then
    (PlaceBetResult.validationFailed, db)
  else
    let (user, db1) := getOrCreateUser db pk
    if (getTxByHash db1.transactions txHash).isSome then
      (PlaceBetResult.duplicateTx, db1)
    else if user.balance - user.lockedBalance < amount then
      (PlaceBetResult.insufficientBalance, db1)
    else
      let users2 := updateUser db1.users user.id
        (fun u => { u with lockedBalance := u.lockedBalance + amount })
      let t : TxRow :=
        { id := db1.nextTxId, userId := user.id, txType := "bet",
          gameType := some gameType, amount := amount, winAmount := 0,
          txHash := some txHash, status := "pending", createdAt := now }
      match insertTx db1.transactions t with
      | none => (PlaceBetResult.storeFailure, db1)
      | some txs2 =>
        let existing := match gameId with
          | some gid => getGameByGameId db1.games gid
          | none => none
        match existing with
        | some g =>
          (PlaceBetResult.ok g.gameId,
           { db1 with users := users2, transactions := txs2,
                      nextTxId := db1.nextTxId + 1 })
        | none =>
          let newGameId := match gameId with
            | some gid => gid
            | none => "game-" ++ toString now
          let g : GameRow :=
            { id := db1.nextGameRowId, gameId := newGameId,
              userId := user.id, gameType := gameType, betAmount := amount,
              winAmount := 0, status := "active", metadata := GameMeta.plainMeta }
          match insertGame db1.games g with
          | none => (PlaceBetResult.storeFailure, db1)
          | some games2 =>
            (PlaceBetResult.ok newGameId,
             { db1 with users := users2, transactions := txs2,
                        games := games2, nextTxId := db1.nextTxId + 1,
                        nextGameRowId := db1.nextGameRowId + 1 })

/-- Outcome of `POST /api/games/cashout`. -/
inductive GamesCashoutResult where
  | validationFailed
  | userNotFound
  | gameNotFound
  | ok (winAmount netProfit newBalance : ℚ)
deriving Repr, DecidableEq

/-- `POST /api/games/cashout`: requires an existing user and a game
found by `game_id`/`user_id`/`status = 'active'`; then, atomically,
releases the lock and credits `winAmount - betAmount` net
(`balance = balance - bet + win`), marks the game `completed`
(by its integer primary key — this route fetched the row, so the key is
correct), and appends a `completed` cashout transaction. -/
def gamesCashout (db : DB) (gameType gameId pk : String) (winAmount : ℚ)
    (now : Nat) : GamesCashoutResult × DB :=
  if pk.length ≠ 55 ∨ winAmount < 0 ∨ gameId = "" ∨
      (gameType ∉ (["crash", "mines", "videopoker", "slide"] : List String)) then
    (GamesCashoutResult.validationFailed, db)
  else
    match getUserByPk db.users pk with
    | none => (GamesCashoutResult.userNotFound, db)
    | some user =>
      match getGame db.games gameId user.id "active" with
      | none => (GamesCashoutResult.gameNotFound, db)
      | some game =>
        let betAmount := game.betAmount
        let users2 := updateUser db.users user.id
          (fun u => { u with
            lockedBalance := u.lockedBalance - betAmount,
            balance := u.balance - betAmount + winAmount })
        let games2 := updateGameById db.games (SqlKey.intKey game.id)
          (fun g => { g with status := "completed", winAmount := winAmount })
        let t : TxRow :=
          { id := db.nextTxId, userId := user.id, txType := "cashout",
            gameType := some gameType, amount := betAmount,
            winAmount := winAmount, txHash := none, status := "completed",
            createdAt := now }
        match insertTx db.transactions t with
        | none => (GamesCashoutResult.validationFailed, db)
        | some txs2 =>
          let db2 := { db with users := users2, transactions := txs2,
                               games := games2, nextTxId := db.nextTxId + 1 }
          match getUserById db2.users user.id with
          | some u2 =>
            (GamesCashoutResult.ok winAmount (winAmount - betAmount) u2.balance,
             db2)
          | none => (GamesCashoutResult.userNotFound, db)

/-! ## `mine.js` — mine-field sessions -/

/-- The inline key normalisation of the HTTP routes (`mine.js`,
`videopoker.js`): trim and take the trailing 55 characters of longer
keys, with no final length check. -/
def normalizeKeyLoose (s : String) : String :=
  let t := strTrim s
  if t.length == 60 then t.drop (t.length - 55)
  else if t.length > 55 then t.drop (t.length - 55)
  else t

/-- Outcome of `POST /api/mine/create`. -/
inductive MineCreateResult where
  | validationFailed
  | bet (gameId : String)
  | storeFailure
deriving Repr, DecidableEq

/-- `POST /api/mine/create` (`mine.js`): validate
(`mines ∈ [1,24]`, `amount ≥ 0`, non-empty hash), get-or-create the
user, then in one `transaction(...)` insert an `active` game whose
metadata holds `mines` and **empty** `mineAreas`/`revealedAreas`, and a
`pending` bet transaction carrying the hash.  No balance is checked and
nothing is locked.  `gid` stands for the generated
`mine-<timestamp>-<random>` identifier. -/
def mineCreate (db : DB) (mines : Nat) (amount : ℚ) (txHash pkRaw : String)
    (gid : String) (now : Nat) : MineCreateResult × DB :=
  if mines < 1 ∨ mines > 24 ∨ amount < 0 ∨ txHash = "" ∨ pkRaw = "" then
    (MineCreateResult.validationFailed, db)
  else
    let pk := normalizeKeyLoose pkRaw
    let (user, db1) := getOrCreateUser db pk
    let g : GameRow :=
      { id := db1.nextGameRowId, gameId := gid, userId := user.id,
        gameType := "mines", betAmount := amount, winAmount := 0,
        status := "active",
        metadata := GameMeta.mineMeta mines [] [] }
    let t : TxRow :=
      { id := db1.nextTxId, userId := user.id, txType := "bet",
        gameType := some "mines", amount := amount, winAmount := 0,
        txHash := some txHash, status := "pending", createdAt := now }
    match insertGame db1.games g, insertTx db1.transactions t with
    | some games2, some txs2 =>
      (MineCreateResult.bet gid,
       { db1 with games := games2, transactions := txs2,
                  nextTxId := db1.nextTxId + 1,
                  nextGameRowId := db1.nextGameRowId + 1 })
    | _, _ => (MineCreateResult.storeFailure, db1)

/-- Decoding of a mines metadata blob as the route reads it:
`metadata.mineAreas || []` etc. default to zero / empty on any other
shape. -/
def readMineMeta : GameMeta → Nat × List Nat × List Nat
  | GameMeta.mineMeta m as rs => (m, as, rs)
  | _ => (0, [], [])

/-- Outcome of `POST /api/mine/bet` (a reveal). -/
inductive MineRevealResult where
  | validationFailed
  | userNotFound
  | gameNotFound
  | alreadyRevealed
  | mineHit
  | safe (safeRevealed : Nat) (multiplier winAmount : ℚ)
deriving Repr, DecidableEq

/-- `POST /api/mine/bet` (`mine.js`): reveal cell `point` of an active
session.  If the stored `mineAreas` is still empty the layout is
generated *now* — the first `mines` entries of the shuffled cell list,
supplied here as the oracle `shuffledPoints` — and `revealedAreas`
reset.  A revealed mine ends the session: status `lost` (keyed by the
fetched integer primary key) and `locked_balance -= bet_amount`, with no
balance debit; a safe cell only rewrites the metadata and reports the
running multiplier `totalSafe / (totalSafe - safeRevealed + 1)`. -/
def mineReveal (db : DB) (point : Nat) (gameId pkRaw : String)
    (shuffledPoints : List Nat) : MineRevealResult × DB :=
  if point > 24 ∨ gameId = "" ∨ pkRaw = "" then
    (MineRevealResult.validationFailed, db)
  else
    let pk := normalizeKeyLoose pkRaw
    match getUserByPk db.users pk with
    | none => (MineRevealResult.userNotFound, db)
    | some user =>
      match getGame db.games gameId user.id "active" with
      | none => (MineRevealResult.gameNotFound, db)
      | some game =>
        let (mines, mineAreas0, revealedAreas) := readMineMeta game.metadata
        if point ∈ revealedAreas then (MineRevealResult.alreadyRevealed, db)
        else
          let mineAreas :=
            if mineAreas0.length = 0 then shuffledPoints.take mines
            else mineAreas0
          let isMine := point ∈ mineAreas
          let newRevealedAreas := revealedAreas ++ [point]
          let games2 := updateGameById db.games (SqlKey.intKey game.id)
            (fun g => { g with
              metadata := GameMeta.mineMeta mines mineAreas newRevealedAreas })
          let db2 := { db with games := games2 }
          if isMine then
            let games3 := updateGameById db2.games (SqlKey.intKey game.id)
              (fun g => { g with status := "lost" })
            let users3 := updateUser db2.users user.id
              (fun u => { u with lockedBalance := u.lockedBalance - game.betAmount })
            (MineRevealResult.mineHit, { db2 with games := games3, users := users3 })
          else
            let safeRevealed :=
              (newRevealedAreas.filter (fun p => p ∉ mineAreas)).length
            let totalSafe : ℚ := 25 - (mines : ℚ)
            let multiplier : ℚ :=
              if safeRevealed > 0 then
                totalSafe / (totalSafe - (safeRevealed : ℚ) + 1)
              else 1
            (MineRevealResult.safe safeRevealed multiplier
              (game.betAmount * multiplier), db2)

/-! ## Crash socket (`setupCrashSocket`) — in-memory round state -/

/-- An entry of the in-memory `gameState.players` map of the crash
socket (`socketId -> player data`). -/
structure CrashPlayer where
  socketId : String
  userId : Nat
  betAmount : ℚ
  target : ℚ
  gameId : String
  cashedOut : Bool
  cashoutMultiplier : Option ℚ
deriving Repr, DecidableEq

/-- The in-memory `gameState.currentGame` object. -/
structure CrashGame where
  gameId : String
  crashPoint : ℚ
deriving Repr, DecidableEq

/-- The in-memory crash `gameState`: the current round, the player map
(kept in insertion order), the live multiplier and the running flag. -/
structure CrashState where
  currentGame : Option CrashGame
  players : List CrashPlayer
  multiplier : ℚ
  isRunning : Bool
deriving Repr, DecidableEq

/-- `gameState.players.set(socket.id, player)`. -/
def playersSet (ps : List CrashPlayer) (p : CrashPlayer) : List CrashPlayer :=
  if ps.any (fun q => q.socketId == p.socketId) then
    ps.map (fun q => if q.socketId == p.socketId then p else q)
  else ps ++ [p]

/-- `gameState.players.get(socket.id)`. -/
def playersGet (ps : List CrashPlayer) (sid : String) : Option CrashPlayer :=
  ps.find? (fun q => q.socketId == sid)

/-- Outcome of the crash `join-game` handler. -/
inductive CrashJoinResult where
  | joinError
  | joinOk (gameId : String)
deriving Repr, DecidableEq

/-- The crash `join-game` handler (`setupCrashSocket`): normalise the
key, get-or-create the user, start a fresh round when none is open
(`!isRunning && !currentGame` — `newGameId`/`crashPoint` stand for the
generated id and `generateCrashMultiplier()`), add the player to the
in-memory map (`cashedOut: false`), and insert an `active` `games` row.
No balance check is made and nothing is locked.  The map insertion
precedes the DB insert, so on a DB failure the player is still
registered in memory. -/
def crashJoin (st : CrashState) (db : DB) (socketId pkRaw : String)
    (betAmount target : ℚ) (newGameId : String) (crashPoint : ℚ)
    (now : Nat) : CrashJoinResult × CrashState × DB :=
  match normalizePublicKey pkRaw with
  | none => (CrashJoinResult.joinError, st, db)
  | some pk =>
    let (user, db1) := getOrCreateUser db pk
    let st1 :=
      if !st.isRunning && st.currentGame.isNone then
        { st with
          currentGame := some { gameId := newGameId, crashPoint := crashPoint },
          isRunning := true, multiplier := 1 }
      else st
    let gameId := match st1.currentGame with
      | some g => g.gameId
      | none => "crash-" ++ toString now
    let player : CrashPlayer :=
      { socketId := socketId, userId := user.id, betAmount := betAmount,
        target := target, gameId := gameId, cashedOut := false,
        cashoutMultiplier := none }
    let st2 := { st1 with players := playersSet st1.players player }
    let g : GameRow :=
      { id := db1.nextGameRowId, gameId := gameId, userId := user.id,
        gameType := "crash", betAmount := betAmount, winAmount := 0,
        status := "active", metadata := GameMeta.plainMeta }
    match insertGame db1.games g with
    | none => (CrashJoinResult.joinError, st2, db1)
    | some games2 =>
      (CrashJoinResult.joinOk gameId, st2,
       { db1 with games := games2, nextGameRowId := db1.nextGameRowId + 1 })

/-- Outcome of the crash `bet-cashout` handler. -/
inductive CrashCashoutResult where
  | noActiveBet
  | notRunning
  | cashoutOk (multiplier winAmount : ℚ)
deriving Repr, DecidableEq

/-- The crash `bet-cashout` handler (`setupCrashSocket`): rejected when
the player is absent or already `cashedOut`, or when the game is not
running.  Otherwise `winAmount = betAmount * gameState.multiplier`; the
player is marked cashed out in memory, and one DB transaction releases
the lock and credits the net win
(`locked_balance -= bet`, `balance = balance - bet + win`), updates the
games row — keyed `WHERE id = ?` with the TEXT `player.gameId`, which
matches no row — and appends a `completed` cashout transaction. -/
def crashCashout (st : CrashState) (db : DB) (socketId : String)
    (now : Nat) : CrashCashoutResult × CrashState × DB :=
  match playersGet st.players socketId with
  | none => (CrashCashoutResult.noActiveBet, st, db)
  | some player =>
    if player.cashedOut then (CrashCashoutResult.noActiveBet, st, db)
    else if !st.isRunning then (CrashCashoutResult.notRunning, st, db)
    else
      let currentMultiplier := st.multiplier
      let winAmount := player.betAmount * currentMultiplier
      let betAmount := player.betAmount
      let player2 := { player with cashedOut := true,
                                   cashoutMultiplier := some currentMultiplier }
      let st2 := { st with players := playersSet st.players player2 }
      let users2 := updateUser db.users player.userId
        (fun u => { u with
          lockedBalance := u.lockedBalance - betAmount,
          balance := u.balance - betAmount + winAmount })
      let games2 := updateGameById db.games (SqlKey.textKey player.gameId)
        (fun g => { g with status := "completed", winAmount := winAmount })
      let t : TxRow :=
        { id := db.nextTxId, userId := player.userId, txType := "cashout",
          gameType := some "crash", amount := betAmount,
          winAmount := winAmount, txHash := none, status := "completed",
          createdAt := now }
      match insertTx db.transactions t with
      | none => (CrashCashoutResult.noActiveBet, st, db)
      | some txs2 =>
        (CrashCashoutResult.cashoutOk currentMultiplier winAmount, st2,
         { db with users := users2, games := games2, transactions := txs2,
                   nextTxId := db.nextTxId + 1 })

/-- The flag flip at the top of the crash branch of the multiplier
interval: `gameState.isRunning = false` — a single in-memory transition
taken *before* the player loop. -/
def crashFlip (st : CrashState) : CrashState :=
  { st with isRunning := false }

/-- One iteration of the crash settlement loop
(`gameState.players.forEach`): a player who `cashedOut` is skipped;
otherwise the loss path runs one DB transaction releasing the lock
(`locked_balance -= bet`, no balance debit) and setting the games row to
`lost` — again keyed `WHERE id = ?` with the TEXT game id, matching no
row.  The in-memory player entry is not modified. -/
def crashSettleStep (db : DB) (p : CrashPlayer) : DB :=
  if p.cashedOut then db
  else
    { db with
      users := updateUser db.users p.userId
        (fun u => { u with lockedBalance := u.lockedBalance - p.betAmount }),
      games := updateGameById db.games (SqlKey.textKey p.gameId)
        (fun g => { g with status := "lost" }) }

/-- The full settlement loop over the player map. -/
def crashSettle (st : CrashState) (db : DB) : DB :=
  st.players.foldl crashSettleStep db

/-- The crash-detection branch (`currentMultiplier >= crashPoint`):
flip the running flag, then settle every player. -/
def crashResolve (st : CrashState) (db : DB) : CrashState × DB :=
  let st2 := crashFlip st
  (st2, crashSettle st2 db)

/-! ## Slide socket (`setupSlideSocket`) — join handler -/

/-- An entry of the slide socket's in-memory player map. -/
structure SlidePlayer where
  socketId : String
  userId : Nat
  betAmount : ℚ
  target : ℚ
  gameId : String
deriving Repr, DecidableEq

/-- The slide `gameState` fields the join handler reads. -/
structure SlideState where
  players : List SlidePlayer
  status : String
  currentGameId : Option String
deriving Repr, DecidableEq

/-- Outcome of the slide `join-game` handler. -/
inductive SlideJoinResult where
  | joinError
  | joinOk (gameId : String)
deriving Repr, DecidableEq

/-- The slide `join-game` handler (`setupSlideSocket`): rejected outside
the `BETTING` phase or on a bad key; otherwise get-or-create the user,
add the player to the in-memory map and insert an `active` `games` row.
No balance check is made and nothing is locked. -/
def slideJoin (st : SlideState) (db : DB) (socketId pkRaw : String)
    (betAmount target : ℚ) (now : Nat) :
    SlideJoinResult × SlideState × DB :=
  if st.status ≠ "BETTING" then (SlideJoinResult.joinError, st, db)
  else
    match normalizePublicKey pkRaw with
    | none => (SlideJoinResult.joinError, st, db)
    | some pk =>
      let (user, db1) := getOrCreateUser db pk
      let gameId := match st.currentGameId with
        | some gid => gid
        | none => "slide-" ++ toString now
      let player : SlidePlayer :=
        { socketId := socketId, userId := user.id, betAmount := betAmount,
          target := target, gameId := gameId }
      let ps2 :=
        if st.players.any (fun q => q.socketId == socketId) then
          st.players.map (fun q => if q.socketId == socketId then player else q)
        else st.players ++ [player]
      let st2 := { st with players := ps2 }
      let g : GameRow :=
        { id := db1.nextGameRowId, gameId := gameId, userId := user.id,
          gameType := "slide", betAmount := betAmount, winAmount := 0,
          status := "active", metadata := GameMeta.plainMeta }
      match insertGame db1.games g with
      | none => (SlideJoinResult.joinError, st2, db1)
      | some games2 =>
        (SlideJoinResult.joinOk gameId, st2,
         { db1 with games := games2, nextGameRowId := db1.nextGameRowId + 1 })

/-! ## `videopoker.js` — five-card draw -/

/-- Insert `x` into a list sorted by `le` (the comparator-sort helper:
JS `Array.prototype.sort` with a comparator, modelled as a structural
insertion sort so that it evaluates in the kernel). -/
def insertSorted {α : Type} (le : α → α → Bool) (x : α) :
    List α → List α
  | [] => [x]
  | y :: ys => if le x y then x :: y :: ys else y :: insertSorted le x ys

/-- Comparator sort (`array.sort(cmp)`): insertion sort by `le`. -/
def sortBy {α : Type} (le : α → α → Bool) : List α → List α
  | [] => []
  | x :: xs => insertSorted le x (sortBy le xs)

/-- `RANKS`, in order. -/
def rankOrder : List String :=
  ["2", "3", "4", "5", "6", "7", "8", "9", "10", "J", "Q", "K", "A"]

/-- `rankOrder.indexOf(rank)` with the JS convention of `-1` for a
missing element. -/
def rankIdx (r : String) : Int :=
  match rankOrder.findIdx? (fun x => x == r) with
  | some i => (i : Int)
  | none => -1

/-- Object keys in first-insertion order (`Object.keys(rankCounts)`). -/
def distinctKeys (xs : List String) : List String :=
  xs.foldl (fun acc x => if x ∈ acc then acc else acc ++ [x]) []

/-- The adjacency loop of `isStraight`: each sorted rank must sit one
index above its predecessor; the first gap returns `false`. -/
def consecutiveRanks : List String → Bool
  | a :: b :: rest =>
    if rankIdx b == rankIdx a + 1 then consecutiveRanks (b :: rest) else false
  | _ => true

/-- `isStraight(ranks)` (`videopoker.js`): sort the distinct ranks by
`rankOrder` index and require consecutive indices.  (After the loop the
source checks for the A-2-3-4-5 wheel and then returns `true`
unconditionally — both post-loop paths return `true`, and the wheel
test itself is unreachable because `5,A` already failed the loop — so
the loop alone decides the result.) -/
def isStraight (ranks : List String) : Bool :=
  consecutiveRanks (sortBy (fun a b => rankIdx a ≤ rankIdx b) ranks)

/-- `evaluateHand(hand)` (`videopoker.js`): the pay-table dispatch on
rank multiset, suit count and straightness, returning the ranking name
and fixed multiplier, `("", 0)` for anything below a pair of jacks. -/
def evaluateHand (hand : List Card) : String × ℚ :=
  if hand.length ≠ 5 then ("", 0)
  else
    let ranks := distinctKeys (hand.map (fun c => c.rank))
    let suits := distinctKeys (hand.map (fun c => c.suit))
    let rankCount := fun r => (hand.filter (fun c => c.rank == r)).length
    let counts : List Nat := sortBy (fun a b => b ≤ a) (ranks.map rankCount)
    if suits.length = 1 ∧ "A" ∈ ranks ∧ "K" ∈ ranks ∧ "Q" ∈ ranks ∧
        "J" ∈ ranks ∧ "10" ∈ ranks then ("royal_flush", 800)
    else if suits.length = 1 ∧ isStraight ranks then ("straight_flush", 60)
    else if counts.head? = some 4 then ("4_of_a_kind", 22)
    else if counts.head? = some 3 ∧ counts.get? 1 = some 2 then ("full_house", 9)
    else if suits.length = 1 then ("flush", 6)
    else if isStraight ranks then ("straight", 4)
    else if counts.head? = some 3 then ("3_of_a_kind", 3)
    else if (ranks.filter (fun r => rankCount r = 2)).any
        (fun r => r ∈ (["J", "Q", "K", "A"] : List String)) then ("pair", 1)
    else ("", 0)

/-- Outcome of `POST /api/video-poker/init`. -/
inductive VpInitResult where
  | validationFailed
  | ok (gameId : String) (hand : List Card)
  | storeFailure
deriving Repr, DecidableEq

/-- `POST /api/video-poker/init` (`videopoker.js`): get-or-create the
user, deal the first five cards of the already-shuffled deck (the
oracle `shuffledDeck` stands for `shuffleDeck(createDeck())`), and in
one `transaction(...)` insert an `active` game whose metadata holds the
hand and the remaining deck, plus a `pending` bet transaction carrying
the hash.  Nothing is locked and no balance is checked. -/
def vpInit (db : DB) (betAmount : ℚ) (txHash pkRaw : String)
    (shuffledDeck : List Card) (gid : String) (now : Nat) :
    VpInitResult × DB :=
  if betAmount < 0 ∨ txHash = "" ∨ pkRaw = "" then
    (VpInitResult.validationFailed, db)
  else
    let pk := normalizeKeyLoose pkRaw
    let (user, db1) := getOrCreateUser db pk
    let hand := shuffledDeck.take 5
    let remainingDeck := shuffledDeck.drop 5
    let g : GameRow :=
      { id := db1.nextGameRowId, gameId := gid, userId := user.id,
        gameType := "videopoker", betAmount := betAmount, winAmount := 0,
        status := "active",
        metadata := GameMeta.pokerMeta hand remainingDeck [] }
    let t : TxRow :=
      { id := db1.nextTxId, userId := user.id, txType := "bet",
        gameType := some "videopoker", amount := betAmount, winAmount := 0,
        txHash := some txHash, status := "pending", createdAt := now }
    match insertGame db1.games g, insertTx db1.transactions t with
    | some games2, some txs2 =>
      (VpInitResult.ok gid hand,
       { db1 with games := games2, transactions := txs2,
                  nextTxId := db1.nextTxId + 1,
                  nextGameRowId := db1.nextGameRowId + 1 })
    | _, _ => (VpInitResult.storeFailure, db1)

/-- Decoding of a video-poker metadata blob as the draw route reads it
(`metadata.hand || []`, `metadata.remainingDeck || []`). -/
def readPokerMeta : GameMeta → List Card × List Card
  | GameMeta.pokerMeta h d _ => (h, d)
  | _ => ([], [])

/-- The card-replacement loop of the draw route: walk the hand by
index; a held index keeps its card, any other index shifts the next
card off the remaining deck (keeping its card when the deck is empty).
Returns the new hand and what is left of the deck. -/
def drawReplace : List Card → Nat → List Nat → List Card → List Card × List Card
  | [], _, _, deck => ([], deck)
  | c :: rest, i, holds, deck =>
    if i ∈ holds then
      let (r, d) := drawReplace rest (i + 1) holds deck
      (c :: r, d)
    else
      match deck with
      | [] =>
        let (r, d) := drawReplace rest (i + 1) holds []
        (c :: r, d)
      | dc :: dr =>
        let (r, d) := drawReplace rest (i + 1) holds dr
        (dc :: r, d)

/-- `SELECT * FROM games WHERE user_id = ? AND game_type = 'videopoker'
AND status = 'active' ORDER BY created_at DESC LIMIT 1`: the most
recently inserted matching row. -/
def getLatestActiveVp (games : List GameRow) (uid : Nat) : Option GameRow :=
  (games.filter (fun g =>
    g.userId == uid && g.gameType == "videopoker" && g.status == "active")).getLast?

/-- Outcome of `POST /api/video-poker/draw`. -/
inductive VpDrawResult where
  | validationFailed
  | userNotFound
  | gameNotFound
  | drawOk (hand : List Card) (ranking : String) (payout winAmount : ℚ)
deriving Repr, DecidableEq

/-- `POST /api/video-poker/draw` (`videopoker.js`): find the active
session (by `gameId` when given, else the latest), replace the non-held
cards, evaluate the final hand, and settle in one `transaction(...)`:
`winAmount = ranking ? bet * multiplier : 0`; a positive win releases
the lock and credits the net (`locked -= bet`,
`balance = balance - bet + win`), marks the game `completed` and appends
a cashout transaction, while a zero win only releases the lock and marks
the game `lost`.  Either way the response carries `gameOver: true`. -/
def vpDraw (db : DB) (holdIndexes : List Nat) (gameId : Option String)
    (pkRaw : String) (now : Nat) : VpDrawResult × DB :=
  if pkRaw = "" then (VpDrawResult.validationFailed, db)
  else
    let pk := normalizeKeyLoose pkRaw
    match getUserByPk db.users pk with
    | none => (VpDrawResult.userNotFound, db)
    | some user =>
      let gameOpt := match gameId with
        | some gid => getGame db.games gid user.id "active"
        | none => getLatestActiveVp db.games user.id
      match gameOpt with
      | none => (VpDrawResult.gameNotFound, db)
      | some game =>
        let (hand, remainingDeck) := readPokerMeta game.metadata
        let (newHand, deck2) := drawReplace hand 0 holdIndexes remainingDeck
        let (ranking, multiplier) := evaluateHand newHand
        let betAmount := game.betAmount
        let winAmount := if ranking ≠ "" then betAmount * multiplier else 0
        let newMeta := GameMeta.pokerMeta newHand deck2 holdIndexes
        if winAmount > 0 then
          let users2 := updateUser db.users user.id
            (fun u => { u with
              lockedBalance := u.lockedBalance - betAmount,
              balance := u.balance - betAmount + winAmount })
          let games2 := updateGameById db.games (SqlKey.intKey game.id)
            (fun g => { g with status := "completed", winAmount := winAmount,
                               metadata := newMeta })
          let t : TxRow :=
            { id := db.nextTxId, userId := user.id, txType := "cashout",
              gameType := some "videopoker", amount := betAmount,
              winAmount := winAmount, txHash := none, status := "completed",
              createdAt := now }
          match insertTx db.transactions t with
          | none => (VpDrawResult.validationFailed, db)
          | some txs2 =>
            (VpDrawResult.drawOk newHand ranking multiplier winAmount,
             { db with users := users2, games := games2, transactions := txs2,
                       nextTxId := db.nextTxId + 1 })
        else
          let users2 := updateUser db.users user.id
            (fun u => { u with lockedBalance := u.lockedBalance - betAmount })
          let games2 := updateGameById db.games (SqlKey.intKey game.id)
            (fun g => { g with status := "lost", metadata := newMeta })
          (VpDrawResult.drawOk newHand ranking multiplier winAmount,
           { db with users := users2, games := games2 })

/-! ## `verifyPendingTransactions.js` — the reconciliation job -/

/-- One `verifyTransaction(tx)` call of the job, for a transaction it
selected: `verified || confirmed` (the oracle) promotes the row to
`confirmed`; otherwise a row older than ten minutes
(`maxAge = 600000` ms) is marked `failed`, and the provisionally locked
amount is released **only when `tx.type === 'bet'`**. -/
def verifyTxStep (now : Nat) (oracle : String → Bool) (db : DB)
    (tx : TxRow) : DB :=
  match tx.txHash with
  | none => db
  | some h =>
    if oracle h then
      { db with transactions := db.transactions.map (fun t =>
          if t.id == tx.id then { t with status := "confirmed" } else t) }
    else if now - tx.createdAt > 600000 then
      let txs2 := db.transactions.map (fun t =>
        if t.id == tx.id then { t with status := "failed" } else t)
      let users2 :=
        if tx.txType == "bet" then
          updateUser db.users tx.userId
            (fun u => { u with lockedBalance := u.lockedBalance - tx.amount })
        else db.users
      { db with transactions := txs2, users := users2 }
    else db

/-- The job's row selection:
`SELECT ... WHERE t.status = 'pending' AND t.tx_hash IS NOT NULL
ORDER BY t.created_at ASC LIMIT 50`.  Withdrawal rows carry no
`tx_hash`, so this never selects them. -/
def pendingSelection (db : DB) : List TxRow :=
  (sortBy (fun a b => a.createdAt ≤ b.createdAt)
    (db.transactions.filter (fun t =>
      t.status == "pending" && t.txHash.isSome))).take 50

/-- One pass of `verifyPendingTransactions()`: run `verifyTransaction`
on every selected row. -/
def verifyPendingTransactionsOnce (db : DB) (now : Nat)
    (oracle : String → Bool) : DB :=
  (pendingSelection db).foldl (verifyTxStep now oracle) db

/-! ## Shared fixtures and helper lemmas -/

/-- A 55-character public key used in concrete scenarios (the length the
validators require). -/
def pkA : String := "AAAAAAAAAAAAAAAAAAAAAAAAAAAAAAAAAAAAAAAAAAAAAAAAAAAAAAA"

theorem pkA_length : pkA.length = 55 := rfl

/-- The empty store. -/
def emptyDB : DB :=
  { users := [], transactions := [], games := [],
    nextUserId := 1, nextTxId := 1, nextGameRowId := 1 }

/-- A one-user store with the given balances. -/
def oneUserDB (balance lockedBalance : ℚ) : DB :=
  { emptyDB with
    users := [{ id := 1, publicKey := pkA, balance := balance,
                lockedBalance := lockedBalance }],
    nextUserId := 2 }

/-- The crash `gameState` before any round: no current game, empty
player map, multiplier 1, not running. -/
def crashIdle : CrashState :=
  { currentGame := none, players := [], multiplier := 1, isRunning := false }

theorem getUserByPk_updateUser (users : List UserRow) (uid : Nat)
    (f : UserRow → UserRow) (pk : String)
    (hf : ∀ u, (f u).publicKey = u.publicKey) :
    getUserByPk (updateUser users uid f) pk =
      (getUserByPk users pk).map (fun u => if u.id == uid then f u else u) := by
  have hpred : ((fun u : UserRow => u.publicKey == pk) ∘
      (fun u => if u.id == uid then f u else u)) =
      (fun u : UserRow => u.publicKey == pk) := by
    funext u
    by_cases hu : u.id == uid <;> simp [Function.comp, hu, hf]
  unfold getUserByPk updateUser
  rw [List.find?_map, hpred]

theorem getUserById_updateUser (users : List UserRow) (uid uid' : Nat)
    (f : UserRow → UserRow) (hf : ∀ u, (f u).id = u.id) :
    getUserById (updateUser users uid f) uid' =
      (getUserById users uid').map (fun u => if u.id == uid then f u else u) := by
  have hpred : ((fun u : UserRow => u.id == uid') ∘
      (fun u => if u.id == uid then f u else u)) =
      (fun u : UserRow => u.id == uid') := by
    funext u
    by_cases hu : u.id == uid <;> simp [Function.comp, hu, hf]
  unfold getUserById updateUser
  rw [List.find?_map, hpred]

theorem getTxByHash_append_hit (txs : List TxRow) (t : TxRow) (h : String)
    (hnone : getTxByHash txs h = none) (ht : t.txHash = some h) :
    getTxByHash (txs ++ [t]) h = some t := by
  unfold getTxByHash at hnone ⊢
  rw [List.find?_append, hnone]
  simp [List.find?, ht]

theorem filter_hash_of_none (txs : List TxRow) (h : String)
    (hnone : getTxByHash txs h = none) :
    txs.filter (fun t => t.txHash == some h) = [] := by
  rw [List.filter_eq_nil_iff]
  intro t ht
  rcases List.find?_eq_none.mp hnone t ht with hne
  simpa using hne

theorem playersGet_playersSet (ps : List CrashPlayer) (p p2 : CrashPlayer)
    (sid : String) (hfind : playersGet ps sid = some p)
    (hs : p2.socketId = sid) :
    playersGet (playersSet ps p2) sid = some p2 := by
  unfold playersGet at hfind
  have hmem := List.mem_of_find?_eq_some hfind
  have hpsid : (p.socketId == sid) = true := by
    simpa using List.find?_some hfind
  have hany : ps.any (fun q => q.socketId == p2.socketId) = true :=
    List.any_eq_true.mpr ⟨p, hmem, by simp_all⟩
  have hpred : ((fun q : CrashPlayer => q.socketId == sid) ∘
      (fun q => if q.socketId == p2.socketId then p2 else q)) =
      (fun q : CrashPlayer => q.socketId == sid) := by
    funext q
    by_cases hq : q.socketId == p2.socketId <;> simp_all [Function.comp]
  unfold playersGet playersSet
  rw [if_pos hany, List.find?_map, hpred, hfind]
  simp_all

theorem getGame_update_status_ne_active (games : List GameRow) (gid : String)
    (uid : Nat) (rowId : Nat) (f : GameRow → GameRow)
    (huniq : ∀ g0 ∈ games, g0.gameId = gid → g0.id = rowId)
    (hf : ∀ g0, (f g0).status ≠ "active") :
    getGame (updateGameById games (SqlKey.intKey rowId) f) gid uid "active" =
      none := by
  unfold getGame updateGameById
  rw [List.find?_eq_none]
  intro h hmem
  obtain ⟨g0, hg0, rfl⟩ := List.mem_map.mp hmem
  by_cases hkey : keyMatchesId g0.id (SqlKey.intKey rowId)
  · simp [hkey, hf g0]
  · have hgid : g0.gameId ≠ gid := by
      intro hg
      exact hkey (by simp [keyMatchesId, huniq g0 hg0 hg])
    simp [hkey, hgid]

theorem evaluateHand_pos (hand : List Card) :
    0 < (evaluateHand hand).2 ↔ (evaluateHand hand).1 ≠ "" := by
  unfold evaluateHand
  dsimp only
  repeat' split
  all_goals norm_num
  all_goals decide

theorem mem_insertSorted {α : Type} (le : α → α → Bool) (x : α)
    (l : List α) (a : α) :
    a ∈ insertSorted le x l ↔ a = x ∨ a ∈ l := by
  induction l with
  | nil => simp [insertSorted]
  | cons y ys ih =>
    by_cases hle : le x y
    · simp [insertSorted, hle]
    · simp only [insertSorted, hle, Bool.false_eq_true, if_false,
        List.mem_cons, ih]
      tauto

theorem mem_sortBy {α : Type} (le : α → α → Bool) (l : List α) (a : α) :
    a ∈ sortBy le l ↔ a ∈ l := by
  induction l with
  | nil => simp [sortBy]
  | cons x xs ih =>
    simp [sortBy, mem_insertSorted, ih]

theorem pendingSelection_hash_isSome (db : DB) :
    ∀ t ∈ pendingSelection db, t.txHash.isSome = true := by
  intro t ht
  unfold pendingSelection at ht
  have h1 : t ∈ sortBy (fun a b => a.createdAt ≤ b.createdAt)
      (db.transactions.filter (fun t =>
        t.status == "pending" && t.txHash.isSome)) :=
    List.take_subset _ _ ht
  rw [mem_sortBy] at h1
  have h2 := List.of_mem_filter h1
  simp only [Bool.and_eq_true] at h2
  exact h2.2

/-! ## The claims -/

/-- Claim C1 — claimed: for every User and after every core operation, the
ledger invariant `0 ≤ lockedBalance ≤ balance` holds at every observable
instant.  The code violates this: `POST /api/mine/create` locks nothing,
yet the mine-hit path of `POST /api/mine/bet` runs
`locked_balance -= bet_amount`, so a user with balance 0 who creates a
mine session with bet 40 and reveals a mine ends with
`lockedBalance = -40 < 0`. -/
theorem c1_ledger_invariant_violated :
    ((mineReveal (mineCreate (oneUserDB 0 0) 5 40 "h1" pkA "mine-g1" 0).2
        0 "mine-g1" pkA [0, 1, 2, 3, 4, 5, 6, 7, 8]).2).users =
      [{ id := 1, publicKey := pkA, balance := 0, lockedBalance := -40 }] ∧
    ¬ (0 ≤ (-40 : ℚ) ∧ (-40 : ℚ) ≤ 0) := by
  constructor
  · norm_num [mineReveal, mineCreate, oneUserDB, emptyDB, normalizeKeyLoose,
      strTrim, getUserByPk, getGame, readMineMeta, updateGameById, updateUser,
      keyMatchesId, getOrCreateUser, insertGame, insertTx, getTxByHash,
      getGameByGameId, getUserById, List.find?, List.take, pkA_length,
      (by decide : "h1" ≠ ""), (by decide : "mine-g1" ≠ ""),
      (by decide : pkA ≠ "")]
  · norm_num

/-- Claim C5 — claimed: submitting the same external proof (`tx_hash`)
twice never produces two confirmed Transactions: the first deposit
credits the balance exactly once, the second submission is rejected as a
duplicate leaving the balance unchanged, and at most one transaction row
holds the proof.  Confirmed: `POST /api/payment/deposit` checks
`tx_hash` before inserting, so a repeat call returns the duplicate error
and leaves the store untouched. -/
theorem c5_duplicate_deposit_rejected (db : DB) (h pk : String) (a : ℚ)
    (now1 now2 : Nat) (user : UserRow)
    (hh : h ≠ "") (hpk : pk.length = 55) (ha : 0 ≤ a)
    (huser : getUserByPk db.users pk = some user)
    (hid : getUserById db.users user.id = some user)
    (hfresh : getTxByHash db.transactions h = none) :
    (deposit db h pk a now1).1 = DepositResult.ok (user.balance + a) ∧
    getUserById (deposit db h pk a now1).2.users user.id =
      some { user with balance := user.balance + a } ∧
    ((deposit db h pk a now1).2.transactions.filter
      (fun t => t.txHash == some h)).length = 1 ∧
    (deposit (deposit db h pk a now1).2 h pk a now2).1 =
      DepositResult.duplicateTx ∧
    (deposit (deposit db h pk a now1).2 h pk a now2).2 =
      (deposit db h pk a now1).2 := by
  have hcond : ¬ (h = "" ∨ pk.length ≠ 55 ∨ a < 0) := by
    push_neg
    exact ⟨hh, hpk, ha⟩
  have hbal : ∀ u : UserRow,
      ({ u with balance := u.balance + a } : UserRow).publicKey = u.publicKey :=
    fun u => rfl
  have hbid : ∀ u : UserRow,
      ({ u with balance := u.balance + a } : UserRow).id = u.id :=
    fun u => rfl
  have hlookup :
      getUserById (updateUser db.users user.id
        (fun u => { u with balance := u.balance + a })) user.id =
      some { user with balance := user.balance + a } := by
    rw [getUserById_updateUser db.users user.id user.id _ hbid, hid]
    simp
  have hpk1 :
      getUserByPk (updateUser db.users user.id
        (fun u => { u with balance := u.balance + a })) pk =
      some { user with balance := user.balance + a } := by
    rw [getUserByPk_updateUser db.users user.id _ pk hbal, huser]
    simp
  simp only [deposit, if_neg hcond, getOrCreateUser, huser, hfresh, insertTx,
    Option.isSome_none, Bool.false_eq_true, if_false, hlookup, hpk1]
  refine ⟨trivial, trivial, ?_, ?_, ?_⟩
  · rw [List.filter_append, filter_hash_of_none db.transactions h hfresh]
    simp
  · rw [getTxByHash_append_hit db.transactions _ h hfresh rfl]
  · rw [getTxByHash_append_hit db.transactions _ h hfresh rfl]

/-- Witness for C5: a user with balance 100 deposits 25 with proof
`"p1"` twice; the first call credits, the second is rejected. -/
theorem c5_duplicate_deposit_rejected_witness :
    (deposit (oneUserDB 100 0) "p1" pkA 25 5).1 =
      DepositResult.ok (100 + 25) ∧
    (deposit (deposit (oneUserDB 100 0) "p1" pkA 25 5).2 "p1" pkA 25 6).1 =
      DepositResult.duplicateTx := by
  have h := c5_duplicate_deposit_rejected (oneUserDB 100 0) "p1" pkA 25 5 6
    { id := 1, publicKey := pkA, balance := 100, lockedBalance := 0 }
    (by decide) pkA_length (by norm_num) rfl rfl rfl
  exact ⟨h.1, h.2.2.2.1⟩

/-- Claim C6 — claimed: a user with balance 100 who registers a bet of 40
in a continuous-multiplier round and never cashes out has the bet
settled as lost, with lockedBalance returning to 0 and balance ending at
**60**.  False on the code: the crash loss path only releases the lock
(`locked_balance -= bet`) and never debits the balance, so the balance
ends at 100, not 60. -/
theorem c6_counterexample :
    ((crashResolve
        (crashJoin crashIdle
          (placeBet (oneUserDB 100 0) "h1" "crash" 40 pkA (some "game-g0") 0).2
          "s1" pkA 40 2 "crash-g1" 3 0).2.1
        (crashJoin crashIdle
          (placeBet (oneUserDB 100 0) "h1" "crash" 40 pkA (some "game-g0") 0).2
          "s1" pkA 40 2 "crash-g1" 3 0).2.2).2).users =
      [{ id := 1, publicKey := pkA, balance := 100, lockedBalance := 0 }] ∧
    (100 : ℚ) ≠ 60 := by
  constructor
  · norm_num [crashResolve, crashJoin, crashSettle, crashSettleStep, crashFlip,
      placeBet, oneUserDB, emptyDB, crashIdle, normalizePublicKey, strTrim,
      getUserByPk, getOrCreateUser, getTxByHash, insertTx, insertGame,
      getGameByGameId, updateUser, updateGameById, keyMatchesId, playersSet,
      playersGet, List.find?, List.foldl, pkA_length,
      (by decide : "h1" ≠ ""), (by decide : "game-g0" ≠ ""),
      (by decide : pkA ≠ ""),
      (by decide : ("game-g0" == "crash-g1") = false),
      (by decide : sqlTextToNat? "crash-g1" = none)]
  · norm_num

/-- Claim C6, amended — what the code actually does in Scenario A: the
bet is settled through the crash loss path (the player is processed,
never marked cashed out), lockedBalance returns to 0, but the balance is
left **unchanged at 100** — the loss path never debits the bet amount —
no settlement transaction is appended, and the persisted games rows stay
`active` because the loss-path status update keys the integer primary
key with the TEXT game id and so matches no row. -/
theorem c6_amended :
    ((crashResolve
        (crashJoin crashIdle
          (placeBet (oneUserDB 100 0) "h1" "crash" 40 pkA (some "game-g0") 0).2
          "s1" pkA 40 2 "crash-g1" 3 0).2.1
        (crashJoin crashIdle
          (placeBet (oneUserDB 100 0) "h1" "crash" 40 pkA (some "game-g0") 0).2
          "s1" pkA 40 2 "crash-g1" 3 0).2.2).2).users =
      [{ id := 1, publicKey := pkA, balance := 100, lockedBalance := 0 }] ∧
    (∀ g ∈ ((crashResolve
        (crashJoin crashIdle
          (placeBet (oneUserDB 100 0) "h1" "crash" 40 pkA (some "game-g0") 0).2
          "s1" pkA 40 2 "crash-g1" 3 0).2.1
        (crashJoin crashIdle
          (placeBet (oneUserDB 100 0) "h1" "crash" 40 pkA (some "game-g0") 0).2
          "s1" pkA 40 2 "crash-g1" 3 0).2.2).2).games, g.status = "active") ∧
    ((crashResolve
        (crashJoin crashIdle
          (placeBet (oneUserDB 100 0) "h1" "crash" 40 pkA (some "game-g0") 0).2
          "s1" pkA 40 2 "crash-g1" 3 0).2.1
        (crashJoin crashIdle
          (placeBet (oneUserDB 100 0) "h1" "crash" 40 pkA (some "game-g0") 0).2
          "s1" pkA 40 2 "crash-g1" 3 0).2.2).2).transactions.map
        (fun t => t.txType) = ["bet"] := by
  refine ⟨?_, ?_, ?_⟩ <;>
    norm_num [crashResolve, crashJoin, crashSettle, crashSettleStep, crashFlip,
      placeBet, oneUserDB, emptyDB, crashIdle, normalizePublicKey, strTrim,
      getUserByPk, getOrCreateUser, getTxByHash, insertTx, insertGame,
      getGameByGameId, updateUser, updateGameById, keyMatchesId, playersSet,
      playersGet, List.find?, List.foldl, pkA_length,
      (by decide : "h1" ≠ ""), (by decide : "game-g0" ≠ ""),
      (by decide : pkA ≠ ""),
      (by decide : ("game-g0" == "crash-g1") = false),
      (by decide : sqlTextToNat? "crash-g1" = none)]

/-- Claim C7 — claimed: a successful early cashout computes
`winAmount = amount × currentMultiplier`, releases the locked amount,
credits the net `winAmount − amount` to balance
(`balance = balance − bet + win`), marks the bet cashed-out, and appends
a `completed` cashout Transaction.  Confirmed on the crash `bet-cashout`
handler; instantiated at balance 100, bet 40, multiplier 2.5 this gives
balance 160 and lockedBalance 0 (see the witness). -/
theorem c7_cashout_credits_net (st : CrashState) (db : DB) (sid : String)
    (now : Nat) (p : CrashPlayer) (u : UserRow)
    (hp : playersGet st.players sid = some p)
    (hco : p.cashedOut = false)
    (hrun : st.isRunning = true)
    (hu : getUserById db.users p.userId = some u) :
    (crashCashout st db sid now).1 =
      CrashCashoutResult.cashoutOk st.multiplier (p.betAmount * st.multiplier) ∧
    playersGet (crashCashout st db sid now).2.1.players sid =
      some { p with cashedOut := true,
                    cashoutMultiplier := some st.multiplier } ∧
    getUserById (crashCashout st db sid now).2.2.users p.userId =
      some { u with
        lockedBalance := u.lockedBalance - p.betAmount,
        balance := u.balance - p.betAmount + p.betAmount * st.multiplier } ∧
    (crashCashout st db sid now).2.2.transactions =
      db.transactions ++
        [({ id := db.nextTxId,
            userId := p.userId,
            txType := "cashout",
            gameType := some "crash",
            amount := p.betAmount,
            winAmount := p.betAmount * st.multiplier,
            txHash := none,
            status := "completed",
            createdAt := now } : TxRow)] := by
  have hsid : p.socketId = sid := by
    have := List.find?_some (by simpa [playersGet] using hp)
    simpa using this
  have huid : u.id = p.userId := by
    have := List.find?_some (by simpa [getUserById] using hu)
    simpa using this
  have hfid : ∀ v : UserRow,
      (({ v with
          lockedBalance := v.lockedBalance - p.betAmount,
          balance := v.balance - p.betAmount + p.betAmount * st.multiplier } :
        UserRow)).id = v.id := fun v => rfl
  simp only [crashCashout, hp, hco, hrun, Bool.not_true, Bool.false_eq_true,
    if_false, insertTx]
  refine ⟨trivial, ?_, ?_, trivial⟩
  · exact playersGet_playersSet st.players p _ sid hp hsid
  · rw [getUserById_updateUser db.users p.userId p.userId _ hfid, hu]
    simp [huid]

/-- Witness for C7 — Scenario B: balance 100, locked bet 40, cashout at
multiplier 5/2 while the round runs: the handler reports win 100, the
user ends with balance 160 and lockedBalance 0, and the cashout
transaction row is appended. -/
theorem c7_cashout_credits_net_witness :
    (crashCashout
      { currentGame := some { gameId := "crash-g1", crashPoint := 3 },
        players := [{ socketId := "s1", userId := 1, betAmount := 40,
                      target := 2, gameId := "crash-g1", cashedOut := false,
                      cashoutMultiplier := none }],
        multiplier := 5/2, isRunning := true }
      (oneUserDB 100 40) "s1" 9).1 =
      CrashCashoutResult.cashoutOk (5/2) (40 * (5/2)) ∧
    getUserById
      (crashCashout
        { currentGame := some { gameId := "crash-g1", crashPoint := 3 },
          players := [{ socketId := "s1", userId := 1, betAmount := 40,
                        target := 2, gameId := "crash-g1", cashedOut := false,
                        cashoutMultiplier := none }],
          multiplier := 5/2, isRunning := true }
        (oneUserDB 100 40) "s1" 9).2.2.users 1 =
      some { id := 1, publicKey := pkA, balance := 160, lockedBalance := 0 } := by
  have h := c7_cashout_credits_net
    { currentGame := some { gameId := "crash-g1", crashPoint := 3 },
      players := [{ socketId := "s1", userId := 1, betAmount := 40,
                    target := 2, gameId := "crash-g1", cashedOut := false,
                    cashoutMultiplier := none }],
      multiplier := 5/2, isRunning := true }
    (oneUserDB 100 40) "s1" 9
    { socketId := "s1", userId := 1, betAmount := 40, target := 2,
      gameId := "crash-g1", cashedOut := false, cashoutMultiplier := none }
    { id := 1, publicKey := pkA, balance := 100, lockedBalance := 40 }
    rfl rfl rfl rfl
  refine ⟨h.1, ?_⟩
  rw [h.2.2.1]
  norm_num

theorem foldl_settleStep_allCashedOut (ps : List CrashPlayer) (db : DB)
    (hall : ∀ p ∈ ps, p.cashedOut = true) :
    ps.foldl crashSettleStep db = db := by
  induction ps generalizing db with
  | nil => rfl
  | cons p rest ih =>
    have hp := hall p (by simp)
    rw [List.foldl_cons]
    rw [show crashSettleStep db p = db by simp [crashSettleStep, hp]]
    exact ih db (fun q hq => hall q (by simp [hq]))

/-- Claim C2 — claimed: every settlement path is guarded by the bet's
still-open status, so a repeated or duplicate settlement attempt on an
already-settled bet changes nothing.  False for the crash loss path: the
resolution loop only skips players marked `cashedOut`, and the loss
branch does not mark the player, so running the resolution again on an
already-lost bet releases the lock a second time — here driving
`lockedBalance` from 0 to −40. -/
theorem c2_counterexample :
    ((crashResolve
        { currentGame := some { gameId := "crash-g1", crashPoint := 3 },
          players := [{ socketId := "s1", userId := 1, betAmount := 40,
                        target := 2, gameId := "crash-g1", cashedOut := false,
                        cashoutMultiplier := none }],
          multiplier := 3, isRunning := true }
        (oneUserDB 100 40)).2).users =
      [{ id := 1, publicKey := pkA, balance := 100, lockedBalance := 0 }] ∧
    ((crashResolve
        (crashResolve
          { currentGame := some { gameId := "crash-g1", crashPoint := 3 },
            players := [{ socketId := "s1", userId := 1, betAmount := 40,
                          target := 2, gameId := "crash-g1", cashedOut := false,
                          cashoutMultiplier := none }],
            multiplier := 3, isRunning := true }
          (oneUserDB 100 40)).1
        (crashResolve
          { currentGame := some { gameId := "crash-g1", crashPoint := 3 },
            players := [{ socketId := "s1", userId := 1, betAmount := 40,
                          target := 2, gameId := "crash-g1", cashedOut := false,
                          cashoutMultiplier := none }],
            multiplier := 3, isRunning := true }
          (oneUserDB 100 40)).2).2).users =
      [{ id := 1, publicKey := pkA, balance := 100, lockedBalance := -40 }] := by
  constructor <;>
    norm_num [crashResolve, crashSettle, crashSettleStep, crashFlip,
      oneUserDB, emptyDB, updateUser, updateGameById, keyMatchesId,
      List.foldl, (by decide : sqlTextToNat? "crash-g1" = none)]

/-- Claim C2, amended — the cashout settlement paths are idempotent: the
crash cashout handler rejects a player already marked `cashedOut`
without touching any state; the crash resolution loop is a no-op on a
player map whose members are all cashed out; and `POST
/api/games/cashout` is guarded by the game's `active` status — when the
game is already settled (no active row) it reports an error and changes
nothing, and a successful cashout leaves the game no longer `active`
(game ids being unique), so a repeated cashout attempt changes nothing.
The crash **loss** path carries no such guard (see the
counterexample). -/
theorem c2_amended :
    (∀ (st : CrashState) (db : DB) (sid : String) (now : Nat)
       (p : CrashPlayer),
      playersGet st.players sid = some p → p.cashedOut = true →
      crashCashout st db sid now = (CrashCashoutResult.noActiveBet, st, db)) ∧
    (∀ (st : CrashState) (db : DB),
      (∀ p ∈ st.players, p.cashedOut = true) → crashSettle st db = db) ∧
    (∀ (db : DB) (gameType gid pk : String) (w : ℚ) (now : Nat)
       (user : UserRow),
      pk.length = 55 → 0 ≤ w → gid ≠ "" →
      gameType ∈ (["crash", "mines", "videopoker", "slide"] : List String) →
      getUserByPk db.users pk = some user →
      getGame db.games gid user.id "active" = none →
      gamesCashout db gameType gid pk w now =
        (GamesCashoutResult.gameNotFound, db)) ∧
    (∀ (db : DB) (gameType gid pk : String) (w : ℚ) (now : Nat)
       (user : UserRow) (game : GameRow),
      pk.length = 55 → 0 ≤ w → gid ≠ "" →
      gameType ∈ (["crash", "mines", "videopoker", "slide"] : List String) →
      getUserByPk db.users pk = some user →
      getUserById db.users user.id = some user →
      getGame db.games gid user.id "active" = some game →
      (∀ g0 ∈ db.games, g0.gameId = gid → g0.id = game.id) →
      getGame (gamesCashout db gameType gid pk w now).2.games gid user.id
        "active" = none) := by
  refine ⟨?_, ?_, ?_, ?_⟩
  · intro st db sid now p hp hco
    simp [crashCashout, hp, hco]
  · intro st db hall
    exact foldl_settleStep_allCashedOut st.players db hall
  · intro db gameType gid pk w now user h55 hw hgid hgt huser hnone
    have hcond : ¬ (pk.length ≠ 55 ∨ w < 0 ∨ gid = "" ∨
        gameType ∉ (["crash", "mines", "videopoker", "slide"] : List String)) := by
      push_neg
      exact ⟨h55, hw, hgid, hgt⟩
    simp only [gamesCashout, if_neg hcond, huser, hnone]
  · intro db gameType gid pk w now user game h55 hw hgid hgt huser hid hG huniq
    have hcond : ¬ (pk.length ≠ 55 ∨ w < 0 ∨ gid = "" ∨
        gameType ∉ (["crash", "mines", "videopoker", "slide"] : List String)) := by
      push_neg
      exact ⟨h55, hw, hgid, hgt⟩
    have hfid : ∀ v : UserRow,
        (({ v with
            lockedBalance := v.lockedBalance - game.betAmount,
            balance := v.balance - game.betAmount + w } : UserRow)).id = v.id :=
      fun v => rfl
    have hlook :
        getUserById (updateUser db.users user.id
          (fun v => { v with
            lockedBalance := v.lockedBalance - game.betAmount,
            balance := v.balance - game.betAmount + w })) user.id =
        some { user with
          lockedBalance := user.lockedBalance - game.betAmount,
          balance := user.balance - game.betAmount + w } := by
      rw [getUserById_updateUser db.users user.id user.id _ hfid, hid]
      simp
    simp only [gamesCashout, if_neg hcond, huser, hG, insertTx, hlook]
    exact getGame_update_status_ne_active db.games gid user.id game.id _
      huniq (fun g0 => (by decide : ("completed" : String) ≠ "active"))

/-- Witness for the amended C2, instantiating all four guards: a
cashed-out player's repeated cashout is rejected with no state change;
the loop over an all-cashed-out player map changes nothing; cashing out
a game with no active row reports the error and changes nothing; and
after a successful cashout the game row is no longer `active`. -/
theorem c2_amended_witness :
    crashCashout
      { currentGame := some { gameId := "crash-g1", crashPoint := 3 },
        players := [{ socketId := "s1", userId := 1, betAmount := 40,
                      target := 2, gameId := "crash-g1", cashedOut := true,
                      cashoutMultiplier := some 2 }],
        multiplier := 3, isRunning := true }
      (oneUserDB 100 0) "s1" 0 =
      (CrashCashoutResult.noActiveBet,
        { currentGame := some { gameId := "crash-g1", crashPoint := 3 },
          players := [{ socketId := "s1", userId := 1, betAmount := 40,
                        target := 2, gameId := "crash-g1", cashedOut := true,
                        cashoutMultiplier := some 2 }],
          multiplier := 3, isRunning := true },
        oneUserDB 100 0) ∧
    crashSettle
      { currentGame := some { gameId := "crash-g1", crashPoint := 3 },
        players := [{ socketId := "s1", userId := 1, betAmount := 40,
                      target := 2, gameId := "crash-g1", cashedOut := true,
                      cashoutMultiplier := some 2 }],
        multiplier := 3, isRunning := false }
      (oneUserDB 100 0) = oneUserDB 100 0 ∧
    gamesCashout (oneUserDB 100 0) "crash" "g1" pkA 90 0 =
      (GamesCashoutResult.gameNotFound, oneUserDB 100 0) ∧
    getGame
      (gamesCashout
        { oneUserDB 100 40 with
          games := [{ id := 1, gameId := "g1", userId := 1,
                      gameType := "crash", betAmount := 40, winAmount := 0,
                      status := "active", metadata := GameMeta.plainMeta }] }
        "crash" "g1" pkA 90 0).2.games "g1" 1 "active" = none := by
  refine ⟨?_, ?_, ?_, ?_⟩
  · exact c2_amended.1
      { currentGame := some { gameId := "crash-g1", crashPoint := 3 },
        players := [{ socketId := "s1", userId := 1, betAmount := 40,
                      target := 2, gameId := "crash-g1", cashedOut := true,
                      cashoutMultiplier := some 2 }],
        multiplier := 3, isRunning := true }
      (oneUserDB 100 0) "s1" 0
      { socketId := "s1", userId := 1, betAmount := 40, target := 2,
        gameId := "crash-g1", cashedOut := true, cashoutMultiplier := some 2 }
      rfl rfl
  · exact c2_amended.2.1
      { currentGame := some { gameId := "crash-g1", crashPoint := 3 },
        players := [{ socketId := "s1", userId := 1, betAmount := 40,
                      target := 2, gameId := "crash-g1", cashedOut := true,
                      cashoutMultiplier := some 2 }],
        multiplier := 3, isRunning := false }
      (oneUserDB 100 0)
      (by
        intro p hp
        rw [List.mem_singleton] at hp
        subst hp
        rfl)
  · exact c2_amended.2.2.1 (oneUserDB 100 0) "crash" "g1" pkA 90 0
      { id := 1, publicKey := pkA, balance := 100, lockedBalance := 0 }
      pkA_length (by norm_num) (by decide) (by decide) rfl rfl
  · exact c2_amended.2.2.2
      { oneUserDB 100 40 with
        games := [{ id := 1, gameId := "g1", userId := 1,
                    gameType := "crash", betAmount := 40, winAmount := 0,
                    status := "active", metadata := GameMeta.plainMeta }] }
      "crash" "g1" pkA 90 0
      { id := 1, publicKey := pkA, balance := 100, lockedBalance := 40 }
      { id := 1, gameId := "g1", userId := 1, gameType := "crash",
        betAmount := 40, winAmount := 0, status := "active",
        metadata := GameMeta.plainMeta }
      pkA_length (by norm_num) (by decide) (by decide) rfl rfl rfl
      (by
        intro g0 hg0 hgid
        rw [List.mem_singleton] at hg0
        subst hg0
        rfl)

/-- Claim C3 — claimed: resolution first flips the round's running flag
in a single transition before iterating bets
(`gameState.isRunning = false`, then the player loop), and cashout
checks that flag before paying; for any interleaving of one cashout
request with the resolution, exactly one of the two settles the bet.
Confirmed, for a single open bet, over the three orderings of the
cashout against the flag flip and the settlement loop: when cashout runs
first it succeeds and the loop then changes nothing; when it runs after
the flip (before or after the loop) it is rejected with no state change
and the loop settles the loss exactly once.  In every schedule the lock
is released exactly once. -/
theorem c3_cashout_resolution_race (st : CrashState) (db : DB)
    (sid : String) (now : Nat) (p : CrashPlayer) (u : UserRow)
    (hps : st.players = [p]) (hsid : p.socketId = sid)
    (hco : p.cashedOut = false) (hrun : st.isRunning = true)
    (hdb : db.users = [u]) (huid : u.id = p.userId) :
    ((crashCashout st db sid now).1 =
        CrashCashoutResult.cashoutOk st.multiplier
          (p.betAmount * st.multiplier) ∧
      crashSettle (crashFlip (crashCashout st db sid now).2.1)
          (crashCashout st db sid now).2.2 =
        (crashCashout st db sid now).2.2 ∧
      ((crashCashout st db sid now).2.2).users =
        [{ u with
            lockedBalance := u.lockedBalance - p.betAmount,
            balance :=
              u.balance - p.betAmount + p.betAmount * st.multiplier }]) ∧
    (crashCashout (crashFlip st) db sid now =
        (CrashCashoutResult.notRunning, crashFlip st, db) ∧
      (crashSettle (crashFlip st) db).users =
        [{ u with lockedBalance := u.lockedBalance - p.betAmount }]) ∧
    (crashCashout (crashResolve st db).1 (crashResolve st db).2 sid now =
        (CrashCashoutResult.notRunning, (crashResolve st db).1,
          (crashResolve st db).2) ∧
      ((crashResolve st db).2).users =
        [{ u with lockedBalance := u.lockedBalance - p.betAmount }]) := by
  subst hsid
  have hp : playersGet st.players p.socketId = some p := by
    simp [playersGet, hps, List.find?]
  refine ⟨⟨?_, ?_, ?_⟩, ⟨?_, ?_⟩, ⟨?_, ?_⟩⟩
  · simp [crashCashout, hp, hco, hrun, insertTx]
  · have hp1 : playersGet [p] p.socketId = some p := by
      simp [playersGet, List.find?]
    have hset : (crashCashout st db p.socketId now).2.1.players =
        [{ p with cashedOut := true,
                  cashoutMultiplier := some st.multiplier }] := by
      simp [crashCashout, hps, hp1, hco, hrun, insertTx, playersSet]
    unfold crashSettle
    rw [show (crashFlip (crashCashout st db p.socketId now).2.1).players =
        (crashCashout st db p.socketId now).2.1.players from rfl, hset]
    rw [List.foldl_cons]
    rw [show crashSettleStep (crashCashout st db p.socketId now).2.2
        { p with cashedOut := true,
                 cashoutMultiplier := some st.multiplier } =
        (crashCashout st db p.socketId now).2.2 by simp [crashSettleStep]]
    rfl
  · simp [crashCashout, hp, hco, hrun, insertTx, updateUser, hdb, huid]
  · simp [crashCashout, hp, hco, crashFlip]
  · simp [crashSettle, crashFlip, hps, List.foldl, crashSettleStep, hco,
      updateUser, hdb, huid]
  · simp [crashCashout, hp, hco, crashResolve, crashFlip]
  · simp [crashResolve, crashSettle, crashFlip, hps, List.foldl,
      crashSettleStep, hco, updateUser, hdb, huid]

/-- Witness for C3 at a concrete round (balance 100, locked 40, bet 40,
multiplier 2): cashout-first succeeds and the following loop changes
nothing; flip-first leaves the cashout rejected with no state change
while the loop releases the lock once. -/
theorem c3_cashout_resolution_race_witness :
    (crashCashout
      { currentGame := some { gameId := "crash-g1", crashPoint := 3 },
        players := [{ socketId := "s1", userId := 1, betAmount := 40,
                      target := 2, gameId := "crash-g1", cashedOut := false,
                      cashoutMultiplier := none }],
        multiplier := 2, isRunning := true }
      (oneUserDB 100 40) "s1" 7).1 =
      CrashCashoutResult.cashoutOk 2 (40 * 2) ∧
    crashCashout
      (crashFlip
        { currentGame := some { gameId := "crash-g1", crashPoint := 3 },
          players := [{ socketId := "s1", userId := 1, betAmount := 40,
                        target := 2, gameId := "crash-g1", cashedOut := false,
                        cashoutMultiplier := none }],
          multiplier := 2, isRunning := true })
      (oneUserDB 100 40) "s1" 7 =
      (CrashCashoutResult.notRunning,
        crashFlip
          { currentGame := some { gameId := "crash-g1", crashPoint := 3 },
            players := [{ socketId := "s1", userId := 1, betAmount := 40,
                          target := 2, gameId := "crash-g1",
                          cashedOut := false, cashoutMultiplier := none }],
            multiplier := 2, isRunning := true },
        oneUserDB 100 40) ∧
    (crashSettle
      (crashFlip
        { currentGame := some { gameId := "crash-g1", crashPoint := 3 },
          players := [{ socketId := "s1", userId := 1, betAmount := 40,
                        target := 2, gameId := "crash-g1", cashedOut := false,
                        cashoutMultiplier := none }],
          multiplier := 2, isRunning := true })
      (oneUserDB 100 40)).users =
      [{ id := 1, publicKey := pkA, balance := 100,
         lockedBalance := 40 - 40 }] := by
  have h := c3_cashout_resolution_race
    { currentGame := some { gameId := "crash-g1", crashPoint := 3 },
      players := [{ socketId := "s1", userId := 1, betAmount := 40,
                    target := 2, gameId := "crash-g1", cashedOut := false,
                    cashoutMultiplier := none }],
      multiplier := 2, isRunning := true }
    (oneUserDB 100 40) "s1" 7
    { socketId := "s1", userId := 1, betAmount := 40, target := 2,
      gameId := "crash-g1", cashedOut := false, cashoutMultiplier := none }
    { id := 1, publicKey := pkA, balance := 100, lockedBalance := 40 }
    rfl rfl rfl rfl rfl rfl
  exact ⟨h.1.1, h.2.1.1, h.2.1.2⟩

/-- Claim C4 — claimed: registration fails with `InvalidPhase` when the
round is not accepting registrations, fails with `InsufficientFunds`
when `balance − lockedBalance < amount` (no lock taken), and otherwise
atomically locks and creates an open Bet.  False as a statement about
every registration path: the slide `join-game` handler, in the BETTING
phase, accepts a bet of 40 from a user with balance 0 — no funds check
is made, nothing is locked, and an `active` games row is created. -/
theorem c4_counterexample :
    (slideJoin
      { players := [], status := "BETTING", currentGameId := some "slide-g1" }
      (oneUserDB 0 0) "s1" pkA 40 2 0).1 =
      SlideJoinResult.joinOk "slide-g1" ∧
    ((slideJoin
      { players := [], status := "BETTING", currentGameId := some "slide-g1" }
      (oneUserDB 0 0) "s1" pkA 40 2 0).2.2).users = (oneUserDB 0 0).users ∧
    ((slideJoin
      { players := [], status := "BETTING", currentGameId := some "slide-g1" }
      (oneUserDB 0 0) "s1" pkA 40 2 0).2.2).games.map
        (fun g => (g.gameId, g.status, g.betAmount)) =
      [("slide-g1", "active", (40 : ℚ))] ∧
    (0 : ℚ) - 0 < 40 := by
  refine ⟨?_, ?_, ?_, by norm_num⟩ <;>
    norm_num [slideJoin, oneUserDB, emptyDB, normalizePublicKey, strTrim,
      getUserByPk, getOrCreateUser, insertGame, getGameByGameId, List.find?,
      pkA_length]

/-- Claim C4, amended — registration is split across paths, none of which
enforces the whole contract: the HTTP `place-bet` route rejects an
insufficient available balance (`balance − lockedBalance < amount`) with
no lock taken and no state change, and otherwise atomically locks the
amount and creates the pending bet transaction and `active` games row —
but it has no phase check; the slide join handler rejects a join outside
the BETTING phase with no state change — but it checks no funds and
takes no lock (see the counterexample). -/
theorem c4_amended :
    (∀ (db : DB) (txHash gameType : String) (amount : ℚ) (pk : String)
       (gameId : Option String) (now : Nat) (user : UserRow),
      txHash ≠ "" → pk.length = 55 → 0 ≤ amount →
      gameType ∈ (["crash", "mines", "videopoker", "slide"] : List String) →
      getUserByPk db.users pk = some user →
      getTxByHash db.transactions txHash = none →
      user.balance - user.lockedBalance < amount →
      placeBet db txHash gameType amount pk gameId now =
        (PlaceBetResult.insufficientBalance, db)) ∧
    (∀ (db : DB) (txHash gameType : String) (amount : ℚ) (pk gid : String)
       (now : Nat) (user : UserRow),
      txHash ≠ "" → pk.length = 55 → 0 ≤ amount →
      gameType ∈ (["crash", "mines", "videopoker", "slide"] : List String) →
      getUserByPk db.users pk = some user →
      getTxByHash db.transactions txHash = none →
      amount ≤ user.balance - user.lockedBalance →
      getGameByGameId db.games gid = none →
      placeBet db txHash gameType amount pk (some gid) now =
        (PlaceBetResult.ok gid,
          { db with
            users := updateUser db.users user.id
              (fun v => { v with
                lockedBalance := v.lockedBalance + amount }),
            transactions := db.transactions ++
              [({ id := db.nextTxId,
                  userId := user.id,
                  txType := "bet",
                  gameType := some gameType,
                  amount := amount,
                  winAmount := 0,
                  txHash := some txHash,
                  status := "pending",
                  createdAt := now } : TxRow)],
            games := db.games ++
              [({ id := db.nextGameRowId,
                  gameId := gid,
                  userId := user.id,
                  gameType := gameType,
                  betAmount := amount,
                  winAmount := 0,
                  status := "active",
                  metadata := GameMeta.plainMeta } : GameRow)],
            nextTxId := db.nextTxId + 1,
            nextGameRowId := db.nextGameRowId + 1 })) ∧
    (∀ (st : SlideState) (db : DB) (socketId pkRaw : String)
       (betAmount target : ℚ) (now : Nat),
      st.status ≠ "BETTING" →
      slideJoin st db socketId pkRaw betAmount target now =
        (SlideJoinResult.joinError, st, db)) := by
  refine ⟨?_, ?_, ?_⟩
  · intro db txHash gameType amount pk gameId now user
      hh h55 ha hgt huser hfresh hlt
    have hcond : ¬ (txHash = "" ∨ pk.length ≠ 55 ∨ amount < 0 ∨
        gameType ∉ (["crash", "mines", "videopoker", "slide"] : List String)) := by
      push_neg
      exact ⟨hh, h55, ha, hgt⟩
    simp [placeBet, if_neg hcond, getOrCreateUser, huser, hfresh, hlt]
    refine ⟨hh, h55, ha, ?_⟩
    simp only [List.mem_cons, List.not_mem_nil] at hgt
    tauto
  · intro db txHash gameType amount pk gid now user
      hh h55 ha hgt huser hfresh hge hgnone
    have hcond : ¬ (txHash = "" ∨ pk.length ≠ 55 ∨ amount < 0 ∨
        gameType ∉ (["crash", "mines", "videopoker", "slide"] : List String)) := by
      push_neg
      exact ⟨hh, h55, ha, hgt⟩
    have hnlt : ¬ (user.balance - user.lockedBalance < amount) :=
      not_lt.mpr hge
    simp [placeBet, if_neg hcond, getOrCreateUser, huser, hfresh, hnlt,
      insertTx, insertGame, hgnone]
    refine ⟨hh, h55, ha, ?_⟩
    simp only [List.mem_cons, List.not_mem_nil] at hgt
    tauto
  · intro st db socketId pkRaw betAmount target now hphase
    simp [slideJoin, hphase]

/-- Witness for the amended C4: a place-bet of 40 against available
balance 0 is rejected with no state change; one against available
balance 100 locks and creates the bet; a slide join outside BETTING is
rejected with no state change. -/
theorem c4_amended_witness :
    placeBet (oneUserDB 0 0) "hx" "slide" 40 pkA none 3 =
      (PlaceBetResult.insufficientBalance, oneUserDB 0 0) ∧
    (placeBet (oneUserDB 100 0) "hy" "crash" 40 pkA (some "g7") 3).1 =
      PlaceBetResult.ok "g7" ∧
    slideJoin { players := [], status := "PLAYING", currentGameId := none }
        (oneUserDB 100 0) "s1" pkA 40 2 3 =
      (SlideJoinResult.joinError,
        { players := [], status := "PLAYING", currentGameId := none },
        oneUserDB 100 0) := by
  refine ⟨?_, ?_, ?_⟩
  · exact c4_amended.1 (oneUserDB 0 0) "hx" "slide" 40 pkA none 3
      { id := 1, publicKey := pkA, balance := 0, lockedBalance := 0 }
      (by decide) pkA_length (by norm_num) (by decide) rfl rfl (by norm_num)
  · rw [c4_amended.2.1 (oneUserDB 100 0) "hy" "crash" 40 pkA "g7" 3
      { id := 1, publicKey := pkA, balance := 100, lockedBalance := 0 }
      (by decide) pkA_length (by norm_num) (by decide) rfl rfl (by norm_num)
      rfl]
  · exact c4_amended.2.2
      { players := [], status := "PLAYING", currentGameId := none }
      (oneUserDB 100 0) "s1" pkA 40 2 3 (by decide)

theorem getGameByGameId_append_hit (games : List GameRow) (g : GameRow)
    (hnone : getGameByGameId games g.gameId = none) :
    getGameByGameId (games ++ [g]) g.gameId = some g := by
  unfold getGameByGameId at hnone ⊢
  rw [List.find?_append, hnone]
  simp [List.find?]

theorem metadata_after_metaUpdate (games : List GameRow) (rid : Nat)
    (meta : GameMeta) :
    ∀ g' ∈ updateGameById games (SqlKey.intKey rid)
        (fun g => { g with metadata := meta }),
      g'.id = rid → g'.metadata = meta := by
  intro g' hmem hid
  unfold updateGameById at hmem
  obtain ⟨g0, hg0, rfl⟩ := List.mem_map.mp hmem
  by_cases hk : keyMatchesId g0.id (SqlKey.intKey rid)
  · simp [hk]
  · rw [if_neg (by simp [hk])] at hid ⊢
    exact absurd (by simp [keyMatchesId, hid]) hk

theorem metadata_after_metaStatusUpdates (games : List GameRow) (rid : Nat)
    (meta : GameMeta) (status2 : String) :
    ∀ g' ∈ updateGameById (updateGameById games (SqlKey.intKey rid)
        (fun g => { g with metadata := meta })) (SqlKey.intKey rid)
        (fun g => { g with status := status2 }),
      g'.id = rid → g'.metadata = meta := by
  intro g' hmem hid
  unfold updateGameById at hmem
  obtain ⟨g1, hg1, rfl⟩ := List.mem_map.mp hmem
  obtain ⟨g0, hg0, rfl⟩ := List.mem_map.mp hg1
  by_cases hk : keyMatchesId g0.id (SqlKey.intKey rid)
  · simp [hk]
  · rw [if_neg (by simp [hk])] at hid ⊢
    rw [if_neg (by simp [hk])] at hid ⊢
    exact absurd (by simp [keyMatchesId, hid]) hk

/-- Claim C8 — claimed: the outcome (mine layout, shuffled deck,
multiplier) is generated exactly once at the transition into
RESOLVED/CREATED and is immutable thereafter; in particular a mine
session's layout exists from session creation.  False for the mine
layout: `POST /api/mine/create` stores `mineAreas: []`, so a session
created with 5 mines holds zero mine cells until the first reveal. -/
theorem c8_counterexample :
    (getGameByGameId
      ((mineCreate (oneUserDB 100 0) 5 40 "h8" pkA "mine-g8" 0).2).games
      "mine-g8").map (fun g => g.metadata) =
      some (GameMeta.mineMeta 5 [] []) ∧
    (0 : Nat) ≠ 5 := by
  constructor
  · norm_num [mineCreate, oneUserDB, emptyDB, normalizeKeyLoose, strTrim,
      getUserByPk, getOrCreateUser, insertGame, insertTx, getTxByHash,
      getGameByGameId, List.find?, pkA_length,
      (by decide : "h8" ≠ ""), (by decide : "mine-g8" ≠ ""),
      (by decide : pkA ≠ "")]
  · norm_num

/-- Claim C8, amended — the mine layout is *not* generated at session
creation: `mine/create` stores empty `mineAreas`, and the layout is
generated lazily at the first reveal (guarded by `mineAreas` being
empty), after which no reveal regenerates or changes it — a reveal on a
session with a non-empty stored layout preserves it whether the cell is
safe or a mine.  The video-poker deck *is* generated at init: the
shuffled deck is dealt and stored with the session at creation. -/
theorem c8_amended :
    (∀ (db : DB) (mines : Nat) (amount : ℚ) (h pk gid : String) (now : Nat),
      1 ≤ mines → mines ≤ 24 → 0 ≤ amount → h ≠ "" → pk ≠ "" →
      getGameByGameId db.games gid = none →
      getTxByHash db.transactions h = none →
      (getGameByGameId ((mineCreate db mines amount h pk gid now).2).games
        gid).map (fun g => g.metadata) =
        some (GameMeta.mineMeta mines [] [])) ∧
    (∀ (db : DB) (point : Nat) (gid pkRaw : String) (oracle : List Nat)
       (user : UserRow) (game : GameRow) (m : Nat) (rs : List Nat),
      point ≤ 24 → gid ≠ "" → pkRaw ≠ "" →
      getUserByPk db.users (normalizeKeyLoose pkRaw) = some user →
      getGame db.games gid user.id "active" = some game →
      game.metadata = GameMeta.mineMeta m [] rs →
      point ∉ rs →
      ∀ g' ∈ ((mineReveal db point gid pkRaw oracle).2).games,
        g'.id = game.id →
        (readMineMeta g'.metadata).2.1 = oracle.take m) ∧
    (∀ (db : DB) (point : Nat) (gid pkRaw : String) (oracle : List Nat)
       (user : UserRow) (game : GameRow) (m : Nat) (as rs : List Nat),
      point ≤ 24 → gid ≠ "" → pkRaw ≠ "" →
      getUserByPk db.users (normalizeKeyLoose pkRaw) = some user →
      getGame db.games gid user.id "active" = some game →
      game.metadata = GameMeta.mineMeta m as rs →
      as ≠ [] → point ∉ rs →
      ∀ g' ∈ ((mineReveal db point gid pkRaw oracle).2).games,
        g'.id = game.id →
        (readMineMeta g'.metadata).2.1 = as) ∧
    (∀ (db : DB) (betAmount : ℚ) (h pk gid : String)
       (shuffledDeck : List Card) (now : Nat),
      0 ≤ betAmount → h ≠ "" → pk ≠ "" →
      getGameByGameId db.games gid = none →
      getTxByHash db.transactions h = none →
      (getGameByGameId
        ((vpInit db betAmount h pk shuffledDeck gid now).2).games gid).map
          (fun g => g.metadata) =
        some (GameMeta.pokerMeta (shuffledDeck.take 5) (shuffledDeck.drop 5)
          [])) := by
  refine ⟨?_, ?_, ?_, ?_⟩
  · intro db mines amount h pk gid now h1 h24 ha hh hpk hgnone htnone
    have hcond : ¬ (mines < 1 ∨ mines > 24 ∨ amount < 0 ∨ h = "" ∨
        pk = "") := by
      push_neg
      exact ⟨h1, h24, ha, hh, hpk⟩
    simp only [mineCreate, if_neg hcond, getOrCreateUser]
    rcases hu : getUserByPk db.users (normalizeKeyLoose pk) with _ | u <;>
      simp only [insertTx, insertGame, hgnone, htnone, Option.isSome_none,
        Bool.false_eq_true, if_false] <;>
      rw [getGameByGameId_append_hit _ _ hgnone] <;>
      rfl
  · intro db point gid pkRaw oracle user game m rs h24 hgid hpk huser hG
      hmeta hnotrev
    have hcond : ¬ (point > 24 ∨ gid = "" ∨ pkRaw = "") := by
      push_neg
      exact ⟨h24, hgid, hpk⟩
    have hgames :
        ((mineReveal db point gid pkRaw oracle).2).games =
        (if point ∈ oracle.take m then
          updateGameById
            (updateGameById db.games (SqlKey.intKey game.id)
              (fun g => { g with metadata :=
                GameMeta.mineMeta m (oracle.take m) (rs ++ [point]) }))
            (SqlKey.intKey game.id) (fun g => { g with status := "lost" })
        else
          updateGameById db.games (SqlKey.intKey game.id)
            (fun g => { g with metadata :=
              GameMeta.mineMeta m (oracle.take m) (rs ++ [point]) })) := by
      simp only [mineReveal, if_neg hcond, huser, hG, hmeta, readMineMeta,
        List.length_nil, if_pos rfl, if_true, eq_self_iff_true,
        if_neg hnotrev]
      by_cases hmine : point ∈ oracle.take m
      · rw [if_pos hmine, if_pos hmine]
      · rw [if_neg hmine, if_neg hmine]
    intro g' hmem hgid'
    rw [hgames] at hmem
    by_cases hmine : point ∈ oracle.take m
    · rw [if_pos hmine] at hmem
      rw [metadata_after_metaStatusUpdates db.games game.id _ _ g' hmem hgid']
      rfl
    · rw [if_neg hmine] at hmem
      rw [metadata_after_metaUpdate db.games game.id _ g' hmem hgid']
      rfl
  · intro db point gid pkRaw oracle user game m as rs h24 hgid hpk huser hG
      hmeta hane hnotrev
    have hcond : ¬ (point > 24 ∨ gid = "" ∨ pkRaw = "") := by
      push_neg
      exact ⟨h24, hgid, hpk⟩
    have halen : ¬ (as.length = 0) := by
      simpa [List.length_eq_zero] using hane
    have hgames :
        ((mineReveal db point gid pkRaw oracle).2).games =
        (if point ∈ as then
          updateGameById
            (updateGameById db.games (SqlKey.intKey game.id)
              (fun g => { g with metadata :=
                GameMeta.mineMeta m as (rs ++ [point]) }))
            (SqlKey.intKey game.id) (fun g => { g with status := "lost" })
        else
          updateGameById db.games (SqlKey.intKey game.id)
            (fun g => { g with metadata :=
              GameMeta.mineMeta m as (rs ++ [point]) })) := by
      simp only [mineReveal, if_neg hcond, huser, hG, hmeta, readMineMeta,
        if_neg halen, if_neg hnotrev]
      by_cases hmine : point ∈ as
      · rw [if_pos hmine, if_pos hmine]
      · rw [if_neg hmine, if_neg hmine]
    intro g' hmem hgid'
    rw [hgames] at hmem
    by_cases hmine : point ∈ as
    · rw [if_pos hmine] at hmem
      rw [metadata_after_metaStatusUpdates db.games game.id _ _ g' hmem hgid']
      rfl
    · rw [if_neg hmine] at hmem
      rw [metadata_after_metaUpdate db.games game.id _ g' hmem hgid']
      rfl
  · intro db betAmount h pk gid shuffledDeck now ha hh hpk hgnone htnone
    have hcond : ¬ (betAmount < 0 ∨ h = "" ∨ pk = "") := by
      push_neg
      exact ⟨ha, hh, hpk⟩
    simp only [vpInit, if_neg hcond, getOrCreateUser]
    rcases hu : getUserByPk db.users (normalizeKeyLoose pk) with _ | u <;>
      simp only [insertTx, insertGame, hgnone, htnone, Option.isSome_none,
        Bool.false_eq_true, if_false] <;>
      rw [getGameByGameId_append_hit _ _ hgnone] <;>
      rfl

/-- Witness for the amended C8: creating a 5-mine session stores an
empty layout; the first reveal on it stores the oracle layout; a reveal
on a session with a stored layout (here hitting mine 3) leaves the
layout unchanged; video-poker init stores the dealt deck. -/
theorem c8_amended_witness :
    (getGameByGameId
      ((mineCreate (oneUserDB 100 0) 5 40 "h8b" pkA "mine-w1" 0).2).games
      "mine-w1").map (fun g => g.metadata) =
      some (GameMeta.mineMeta 5 [] []) ∧
    ((mineReveal
      { oneUserDB 100 0 with
        games := [{ id := 1, gameId := "mg", userId := 1,
                    gameType := "mines", betAmount := 40, winAmount := 0,
                    status := "active",
                    metadata := GameMeta.mineMeta 5 [] [] }] }
      0 "mg" pkA [3, 4, 5, 6, 7]).2).games.map
        (fun g => (readMineMeta g.metadata).2.1) = [[3, 4, 5, 6, 7]] ∧
    ((mineReveal
      { oneUserDB 100 40 with
        games := [{ id := 1, gameId := "mg", userId := 1,
                    gameType := "mines", betAmount := 40, winAmount := 0,
                    status := "active",
                    metadata := GameMeta.mineMeta 5 [3, 4, 5, 6, 7] [0] }] }
      3 "mg" pkA [9, 9, 9, 9, 9]).2).games.map
        (fun g => (readMineMeta g.metadata).2.1) = [[3, 4, 5, 6, 7]] ∧
    (getGameByGameId
      ((vpInit (oneUserDB 100 0) 10 "h8c" pkA
        [{ rank := "A", suit := "Hearts" }, { rank := "2", suit := "Clubs" },
         { rank := "3", suit := "Clubs" }, { rank := "4", suit := "Clubs" },
         { rank := "5", suit := "Clubs" }, { rank := "6", suit := "Clubs" }]
        "vp-w1" 0).2).games "vp-w1").map (fun g => g.metadata) =
      some (GameMeta.pokerMeta
        [{ rank := "A", suit := "Hearts" }, { rank := "2", suit := "Clubs" },
         { rank := "3", suit := "Clubs" }, { rank := "4", suit := "Clubs" },
         { rank := "5", suit := "Clubs" }]
        [{ rank := "6", suit := "Clubs" }] []) := by
  refine ⟨?_, ?_, ?_, ?_⟩
  · rw [c8_amended.1 (oneUserDB 100 0) 5 40 "h8b" pkA "mine-w1" 0
      (by norm_num) (by norm_num) (by norm_num) (by decide) (by decide)
      rfl rfl]
  · have hrow : ((mineReveal
        { oneUserDB 100 0 with
          games := [{ id := 1, gameId := "mg", userId := 1,
                      gameType := "mines", betAmount := 40, winAmount := 0,
                      status := "active",
                      metadata := GameMeta.mineMeta 5 [] [] }] }
        0 "mg" pkA [3, 4, 5, 6, 7]).2).games =
        [{ id := 1, gameId := "mg", userId := 1, gameType := "mines",
           betAmount := 40, winAmount := 0, status := "active",
           metadata := GameMeta.mineMeta 5 [3, 4, 5, 6, 7] [0] }] := by
      norm_num [mineReveal, oneUserDB, emptyDB, normalizeKeyLoose, strTrim,
        getUserByPk, getGame, readMineMeta, updateGameById, keyMatchesId,
        updateUser, List.find?, List.take, pkA_length,
        (by decide : "mg" ≠ ""), (by decide : pkA ≠ "")]
    have h2 := c8_amended.2.1
      { oneUserDB 100 0 with
        games := [{ id := 1, gameId := "mg", userId := 1,
                    gameType := "mines", betAmount := 40, winAmount := 0,
                    status := "active",
                    metadata := GameMeta.mineMeta 5 [] [] }] }
      0 "mg" pkA [3, 4, 5, 6, 7]
      { id := 1, publicKey := pkA, balance := 100, lockedBalance := 0 }
      { id := 1, gameId := "mg", userId := 1, gameType := "mines",
        betAmount := 40, winAmount := 0, status := "active",
        metadata := GameMeta.mineMeta 5 [] [] }
      5 [] (by norm_num) (by decide) (by decide) rfl rfl rfl (by decide)
      { id := 1, gameId := "mg", userId := 1, gameType := "mines",
        betAmount := 40, winAmount := 0, status := "active",
        metadata := GameMeta.mineMeta 5 [3, 4, 5, 6, 7] [0] }
      (by rw [hrow]; exact List.mem_singleton.mpr rfl) rfl
    rw [hrow, List.map_singleton, h2]
    rfl
  · have hrow : ((mineReveal
        { oneUserDB 100 40 with
          games := [{ id := 1, gameId := "mg", userId := 1,
                      gameType := "mines", betAmount := 40, winAmount := 0,
                      status := "active",
                      metadata := GameMeta.mineMeta 5 [3, 4, 5, 6, 7] [0] }] }
        3 "mg" pkA [9, 9, 9, 9, 9]).2).games =
        [{ id := 1, gameId := "mg", userId := 1, gameType := "mines",
           betAmount := 40, winAmount := 0, status := "lost",
           metadata := GameMeta.mineMeta 5 [3, 4, 5, 6, 7] [0, 3] }] := by
      norm_num [mineReveal, oneUserDB, emptyDB, normalizeKeyLoose, strTrim,
        getUserByPk, getGame, readMineMeta, updateGameById, keyMatchesId,
        updateUser, List.find?, List.take, pkA_length,
        (by decide : "mg" ≠ ""), (by decide : pkA ≠ "")]
    have h3 := c8_amended.2.2.1
      { oneUserDB 100 40 with
        games := [{ id := 1, gameId := "mg", userId := 1,
                    gameType := "mines", betAmount := 40, winAmount := 0,
                    status := "active",
                    metadata := GameMeta.mineMeta 5 [3, 4, 5, 6, 7] [0] }] }
      3 "mg" pkA [9, 9, 9, 9, 9]
      { id := 1, publicKey := pkA, balance := 100, lockedBalance := 40 }
      { id := 1, gameId := "mg", userId := 1, gameType := "mines",
        betAmount := 40, winAmount := 0, status := "active",
        metadata := GameMeta.mineMeta 5 [3, 4, 5, 6, 7] [0] }
      5 [3, 4, 5, 6, 7] [0] (by norm_num) (by decide) (by decide) rfl rfl rfl
      (by decide) (by decide)
      { id := 1, gameId := "mg", userId := 1, gameType := "mines",
        betAmount := 40, winAmount := 0, status := "lost",
        metadata := GameMeta.mineMeta 5 [3, 4, 5, 6, 7] [0, 3] }
      (by rw [hrow]; exact List.mem_singleton.mpr rfl) rfl
    rw [hrow, List.map_singleton, h3]
  · rw [c8_amended.2.2.2 (oneUserDB 100 0) 10 "h8c" pkA "vp-w1"
      [{ rank := "A", suit := "Hearts" }, { rank := "2", suit := "Clubs" },
       { rank := "3", suit := "Clubs" }, { rank := "4", suit := "Clubs" },
       { rank := "5", suit := "Clubs" }, { rank := "6", suit := "Clubs" }]
      0 (by norm_num) (by decide) (by decide) rfl rfl]
    rfl

/-- Claim C9 — claimed: the reconciliation job re-attempts every pending
proof-bearing Transaction and, past the max age, marks it failed and
unlocks whatever balance was provisionally locked — for every type whose
flow locked balance, *including withdrawals*.  False: withdrawals are
inserted without a `tx_hash`, so the job's
`tx_hash IS NOT NULL` filter never selects them: a withdrawal of 40,
pending and far older than the 10-minute max age, survives a job pass
untouched, its lock still held. -/
theorem c9_counterexample :
    verifyPendingTransactionsOnce ((withdraw (oneUserDB 100 0) pkA 40 0).2)
        100000000 (fun _ => false) =
      ((withdraw (oneUserDB 100 0) pkA 40 0).2) ∧
    ((withdraw (oneUserDB 100 0) pkA 40 0).2).transactions.map
        (fun t => (t.txType, t.status, t.txHash)) =
      [("withdrawal", "pending", (none : Option String))] ∧
    ((withdraw (oneUserDB 100 0) pkA 40 0).2).users =
      [{ id := 1, publicKey := pkA, balance := 100, lockedBalance := 40 }] ∧
    100000000 - 0 > 600000 := by
  refine ⟨?_, ?_, ?_, by norm_num⟩ <;>
    norm_num [verifyPendingTransactionsOnce, pendingSelection, verifyTxStep,
      withdraw, oneUserDB, emptyDB, getUserByPk, insertTx, getTxByHash,
      updateUser, List.find?, sortBy, insertSorted, pkA_length]

/-- Claim C9, amended — one pass of the job re-attempts verification of
every selected row (`status = 'pending' AND tx_hash IS NOT NULL`); for a
selected transaction older than ten minutes whose verification fails it
marks the row `failed` and releases the locked amount **only when its
type is `bet`**; transactions without a `tx_hash` — withdrawals are
always such — are never selected at all. -/
theorem c9_amended :
    (∀ (db : DB) (now : Nat) (oracle : String → Bool) (tx : TxRow)
       (h : String),
      pendingSelection db = [tx] → tx.txHash = some h → oracle h = false →
      tx.txType = "bet" → now - tx.createdAt > 600000 →
      verifyPendingTransactionsOnce db now oracle =
        { db with
          transactions := db.transactions.map (fun t =>
            if t.id == tx.id then { t with status := "failed" } else t),
          users := updateUser db.users tx.userId
            (fun u => { u with
              lockedBalance := u.lockedBalance - tx.amount }) }) ∧
    (∀ (db : DB) (t : TxRow), t ∈ db.transactions → t.txHash = none →
      t ∉ pendingSelection db) := by
  constructor
  · intro db now oracle tx h hsel hhash horacle htype hage
    unfold verifyPendingTransactionsOnce
    rw [hsel]
    rw [List.foldl_cons, List.foldl_nil]
    unfold verifyTxStep
    rw [hhash]
    simp only [horacle, Bool.false_eq_true, if_false, if_pos hage, htype,
      beq_self_eq_true, if_true]
  · intro db t hmem hnone hsel
    have := pendingSelection_hash_isSome db t hsel
    rw [hnone] at this
    simp at this

/-- Witness for the amended C9: a pending bet transaction with proof
`"h9"`, 10⁸ ms old, failing verification, is marked failed and its
locked 40 released; the hash-less withdrawal row of the C9 scenario is
never selected by the job. -/
theorem c9_amended_witness :
    verifyPendingTransactionsOnce
      { emptyDB with
        users := [{ id := 1, publicKey := pkA, balance := 100,
                    lockedBalance := 40 }],
        transactions := [{
          id := 1, userId := 1, txType := "bet", gameType := some "crash",
          amount := 40, winAmount := 0, txHash := some "h9",
          status := "pending", createdAt := 0 }],
        nextUserId := 2, nextTxId := 2 }
      100000000 (fun _ => false) =
      { emptyDB with
        users := [{ id := 1, publicKey := pkA, balance := 100,
                    lockedBalance := 40 - 40 }],
        transactions := [{
          id := 1, userId := 1, txType := "bet", gameType := some "crash",
          amount := 40, winAmount := 0, txHash := some "h9",
          status := "failed", createdAt := 0 }],
        nextUserId := 2, nextTxId := 2 } ∧
    ({
      id := 1, userId := 1, txType := "withdrawal", gameType := none,
      amount := 40, winAmount := 0, txHash := none, status := "pending",
      createdAt := 0 } : TxRow) ∉
      pendingSelection
        { emptyDB with
          users := [{ id := 1, publicKey := pkA, balance := 100,
                      lockedBalance := 40 }],
          transactions := [{
            id := 1, userId := 1, txType := "withdrawal", gameType := none,
            amount := 40, winAmount := 0, txHash := none,
            status := "pending", createdAt := 0 }],
          nextUserId := 2, nextTxId := 2 } := by
  constructor
  · have h1 := c9_amended.1
      { emptyDB with
        users := [{ id := 1, publicKey := pkA, balance := 100,
                    lockedBalance := 40 }],
        transactions := [{
          id := 1, userId := 1, txType := "bet", gameType := some "crash",
          amount := 40, winAmount := 0, txHash := some "h9",
          status := "pending", createdAt := 0 }],
        nextUserId := 2, nextTxId := 2 }
      100000000 (fun _ => false)
      {
        id := 1, userId := 1, txType := "bet", gameType := some "crash",
        amount := 40, winAmount := 0, txHash := some "h9",
        status := "pending", createdAt := 0 }
      "h9"
      (by simp [pendingSelection, sortBy, insertSorted]) rfl rfl rfl
      (by norm_num)
    rw [h1]
    norm_num [updateUser, emptyDB]
  · exact c9_amended.2
      { emptyDB with
        users := [{ id := 1, publicKey := pkA, balance := 100,
                    lockedBalance := 40 }],
        transactions := [{
          id := 1, userId := 1, txType := "withdrawal", gameType := none,
          amount := 40, winAmount := 0, txHash := none,
          status := "pending", createdAt := 0 }],
        nextUserId := 2, nextTxId := 2 }
      {
        id := 1, userId := 1, txType := "withdrawal", gameType := none,
        amount := 40, winAmount := 0, txHash := none, status := "pending",
        createdAt := 0 }
      (by simp) rfl

theorem updated_row_property (games : List GameRow) (rid : Nat)
    (f : GameRow → GameRow) (P : GameRow → Prop)
    (hf : ∀ g0, P (f g0)) :
    ∀ g' ∈ updateGameById games (SqlKey.intKey rid) f,
      g'.id = rid → (∀ g0, (f g0).id = g0.id) → P g' := by
  intro g' hmem hid' hfid
  unfold updateGameById at hmem
  obtain ⟨g0, hg0, rfl⟩ := List.mem_map.mp hmem
  by_cases hk : keyMatchesId g0.id (SqlKey.intKey rid)
  · rw [if_pos hk]
    exact hf g0
  · rw [if_neg hk] at hid' ⊢
    exact absurd (by simp [keyMatchesId, hid']) hk

/-- Claim C10 — implicit claim: for every active video-poker session, a
single draw request always terminates the session in that same call —
the game status becomes terminal (`completed` on a win, `lost`
otherwise), the locked bet amount is released exactly once, a net credit
of `winAmount − betAmount` is applied exactly when the evaluated hand's
multiplier is positive, and no second draw on the same session is
possible.  Confirmed on `POST /api/video-poker/draw` for a positive bet
(game ids unique, as the schema enforces). -/
theorem c10_draw_terminates_session (db : DB) (holdIndexes : List Nat)
    (gid pkRaw : String) (now : Nat) (user : UserRow) (game : GameRow)
    (hand0 deck0 : List Card) (holds0 : List Nat)
    (hpkr : pkRaw ≠ "")
    (huser : getUserByPk db.users (normalizeKeyLoose pkRaw) = some user)
    (hid : getUserById db.users user.id = some user)
    (hG : getGame db.games gid user.id "active" = some game)
    (hmeta : game.metadata = GameMeta.pokerMeta hand0 deck0 holds0)
    (huniq : ∀ g0 ∈ db.games, g0.gameId = gid → g0.id = game.id)
    (hbet : 0 < game.betAmount) :
    (vpDraw db holdIndexes (some gid) pkRaw now).1 =
      VpDrawResult.drawOk
        (drawReplace hand0 0 holdIndexes deck0).1
        (evaluateHand (drawReplace hand0 0 holdIndexes deck0).1).1
        (evaluateHand (drawReplace hand0 0 holdIndexes deck0).1).2
        (if (evaluateHand (drawReplace hand0 0 holdIndexes deck0).1).1 ≠ ""
          then game.betAmount *
            (evaluateHand (drawReplace hand0 0 holdIndexes deck0).1).2
          else 0) ∧
    (∀ g' ∈ (vpDraw db holdIndexes (some gid) pkRaw now).2.games,
      g'.id = game.id →
      (g'.status =
        (if 0 < (evaluateHand (drawReplace hand0 0 holdIndexes deck0).1).2
          then "completed" else "lost") ∧
        g'.status ≠ "active")) ∧
    getUserById (vpDraw db holdIndexes (some gid) pkRaw now).2.users
        user.id =
      some { user with
        lockedBalance := user.lockedBalance - game.betAmount,
        balance := user.balance +
          (if 0 < (evaluateHand (drawReplace hand0 0 holdIndexes deck0).1).2
            then game.betAmount *
              (evaluateHand (drawReplace hand0 0 holdIndexes deck0).1).2 -
              game.betAmount
            else 0) } ∧
    ((0 : ℚ) <
      (if (evaluateHand (drawReplace hand0 0 holdIndexes deck0).1).1 ≠ ""
        then game.betAmount *
          (evaluateHand (drawReplace hand0 0 holdIndexes deck0).1).2
        else 0) ↔
      0 < (evaluateHand (drawReplace hand0 0 holdIndexes deck0).1).2) ∧
    (∀ (holds2 : List Nat) (now2 : Nat),
      vpDraw (vpDraw db holdIndexes (some gid) pkRaw now).2 holds2
        (some gid) pkRaw now2 =
      (VpDrawResult.gameNotFound,
        (vpDraw db holdIndexes (some gid) pkRaw now).2)) := by
  have hEq := evaluateHand_pos (drawReplace hand0 0 holdIndexes deck0).1
  have hfid : ∀ v : UserRow,
      (({ v with
          lockedBalance := v.lockedBalance - game.betAmount,
          balance := v.balance - game.betAmount +
            game.betAmount *
              (evaluateHand (drawReplace hand0 0 holdIndexes deck0).1).2 } :
        UserRow)).id = v.id := fun v => rfl
  have hfid2 : ∀ v : UserRow,
      (({ v with
          lockedBalance := v.lockedBalance - game.betAmount } :
        UserRow)).id = v.id := fun v => rfl
  have hfpk : ∀ v : UserRow,
      (({ v with
          lockedBalance := v.lockedBalance - game.betAmount,
          balance := v.balance - game.betAmount +
            game.betAmount *
              (evaluateHand (drawReplace hand0 0 holdIndexes deck0).1).2 } :
        UserRow)).publicKey = v.publicKey := fun v => rfl
  have hfpk2 : ∀ v : UserRow,
      (({ v with
          lockedBalance := v.lockedBalance - game.betAmount } :
        UserRow)).publicKey = v.publicKey := fun v => rfl
  by_cases hpos :
      0 < (evaluateHand (drawReplace hand0 0 holdIndexes deck0).1).2
  · have hrank := hEq.mp hpos
    have hwa : (if (evaluateHand
          (drawReplace hand0 0 holdIndexes deck0).1).1 ≠ ""
        then game.betAmount *
          (evaluateHand (drawReplace hand0 0 holdIndexes deck0).1).2
        else 0) = game.betAmount *
          (evaluateHand (drawReplace hand0 0 holdIndexes deck0).1).2 :=
      if_pos hrank
    have hwapos := mul_pos hbet hpos
    have hres : vpDraw db holdIndexes (some gid) pkRaw now =
        (VpDrawResult.drawOk (drawReplace hand0 0 holdIndexes deck0).1
          (evaluateHand (drawReplace hand0 0 holdIndexes deck0).1).1
          (evaluateHand (drawReplace hand0 0 holdIndexes deck0).1).2
          (game.betAmount *
            (evaluateHand (drawReplace hand0 0 holdIndexes deck0).1).2),
        { db with
          users := updateUser db.users user.id
            (fun v => { v with
              lockedBalance := v.lockedBalance - game.betAmount,
              balance := v.balance - game.betAmount +
                game.betAmount *
                  (evaluateHand
                    (drawReplace hand0 0 holdIndexes deck0).1).2 }),
          games := updateGameById db.games (SqlKey.intKey game.id)
            (fun g => { g with
              status := "completed",
              winAmount := game.betAmount *
                (evaluateHand (drawReplace hand0 0 holdIndexes deck0).1).2,
              metadata := GameMeta.pokerMeta
                (drawReplace hand0 0 holdIndexes deck0).1
                (drawReplace hand0 0 holdIndexes deck0).2 holdIndexes }),
          transactions := db.transactions ++
            [({ id := db.nextTxId,
                userId := user.id,
                txType := "cashout",
                gameType := some "videopoker",
                amount := game.betAmount,
                winAmount := game.betAmount *
                  (evaluateHand
                    (drawReplace hand0 0 holdIndexes deck0).1).2,
                txHash := none,
                status := "completed",
                createdAt := now } : TxRow)],
          nextTxId := db.nextTxId + 1 }) := by
      simp only [vpDraw, if_neg hpkr, huser, hG, hmeta, readPokerMeta, hwa,
        if_pos hwapos, insertTx]
    refine ⟨?_, ?_, ?_, ?_, ?_⟩
    · rw [hres, hwa]
    · rw [hres]
      intro g' hmem hgid'
      refine updated_row_property db.games game.id _
        (fun g'' => g''.status =
            (if 0 < (evaluateHand
              (drawReplace hand0 0 holdIndexes deck0).1).2
            then "completed" else "lost") ∧ g''.status ≠ "active")
        (fun g0 => ⟨by rw [if_pos hpos],
          (by decide : ("completed" : String) ≠ "active")⟩) g' hmem hgid'
        (fun g0 => rfl)
    · rw [hres]
      show getUserById (updateUser db.users user.id _) user.id = _
      rw [getUserById_updateUser db.users user.id user.id _ hfid, hid]
      simp only [Option.map_some', beq_self_eq_true, if_true,
        Option.some.injEq, UserRow.mk.injEq, if_pos hpos, true_and, and_true]
      ring
    · rw [hwa]
      exact ⟨fun _ => hpos, fun _ => hwapos⟩
    · intro holds2 now2
      rw [hres]
      have hpk2 : getUserByPk (updateUser db.users user.id
          (fun v => { v with
            lockedBalance := v.lockedBalance - game.betAmount,
            balance := v.balance - game.betAmount +
              game.betAmount *
                (evaluateHand
                  (drawReplace hand0 0 holdIndexes deck0).1).2 }))
          (normalizeKeyLoose pkRaw) =
          some { user with
            lockedBalance := user.lockedBalance - game.betAmount,
            balance := user.balance - game.betAmount +
              game.betAmount *
                (evaluateHand
                  (drawReplace hand0 0 holdIndexes deck0).1).2 } := by
        rw [getUserByPk_updateUser db.users user.id _ _ hfpk, huser]
        simp
      have hnone2 := getGame_update_status_ne_active db.games gid user.id
        game.id
        (fun g => { g with
          status := "completed",
          winAmount := game.betAmount *
            (evaluateHand (drawReplace hand0 0 holdIndexes deck0).1).2,
          metadata := GameMeta.pokerMeta
            (drawReplace hand0 0 holdIndexes deck0).1
            (drawReplace hand0 0 holdIndexes deck0).2 holdIndexes })
        huniq (fun g0 => (by decide : ("completed" : String) ≠ "active"))
      simp only [vpDraw, if_neg hpkr, hpk2, hnone2]
  · have hrank : (evaluateHand
        (drawReplace hand0 0 holdIndexes deck0).1).1 = "" := by
      by_contra hc
      exact hpos (hEq.mpr hc)
    have hwa : (if (evaluateHand
          (drawReplace hand0 0 holdIndexes deck0).1).1 ≠ ""
        then game.betAmount *
          (evaluateHand (drawReplace hand0 0 holdIndexes deck0).1).2
        else 0) = 0 := if_neg (fun hh => hh hrank)
    have hres : vpDraw db holdIndexes (some gid) pkRaw now =
        (VpDrawResult.drawOk (drawReplace hand0 0 holdIndexes deck0).1
          (evaluateHand (drawReplace hand0 0 holdIndexes deck0).1).1
          (evaluateHand (drawReplace hand0 0 holdIndexes deck0).1).2 0,
        { db with
          users := updateUser db.users user.id
            (fun v => { v with
              lockedBalance := v.lockedBalance - game.betAmount }),
          games := updateGameById db.games (SqlKey.intKey game.id)
            (fun g => { g with
              status := "lost",
              metadata := GameMeta.pokerMeta
                (drawReplace hand0 0 holdIndexes deck0).1
                (drawReplace hand0 0 holdIndexes deck0).2 holdIndexes }) }) := by
      simp only [vpDraw, if_neg hpkr, huser, hG, hmeta, readPokerMeta, hwa,
        if_neg (lt_irrefl (0 : ℚ)), insertTx]
    refine ⟨?_, ?_, ?_, ?_, ?_⟩
    · rw [hres, hwa]
    · rw [hres]
      intro g' hmem hgid'
      refine updated_row_property db.games game.id _
        (fun g'' => g''.status =
            (if 0 < (evaluateHand
              (drawReplace hand0 0 holdIndexes deck0).1).2
            then "completed" else "lost") ∧ g''.status ≠ "active")
        (fun g0 => ⟨by rw [if_neg hpos],
          (by decide : ("lost" : String) ≠ "active")⟩) g' hmem hgid'
        (fun g0 => rfl)
    · rw [hres]
      show getUserById (updateUser db.users user.id _) user.id = _
      rw [getUserById_updateUser db.users user.id user.id _ hfid2, hid]
      simp only [Option.map_some', beq_self_eq_true, if_true,
        Option.some.injEq, UserRow.mk.injEq, if_neg hpos, true_and, and_true]
      ring
    · rw [hwa]
      exact ⟨fun hc => absurd hc (lt_irrefl 0), fun hc => absurd hc hpos⟩
    · intro holds2 now2
      rw [hres]
      have hpk2 : getUserByPk (updateUser db.users user.id
          (fun v => { v with
            lockedBalance := v.lockedBalance - game.betAmount }))
          (normalizeKeyLoose pkRaw) =
          some { user with
            lockedBalance := user.lockedBalance - game.betAmount } := by
        rw [getUserByPk_updateUser db.users user.id _ _ hfpk2, huser]
        simp
      have hnone2 := getGame_update_status_ne_active db.games gid user.id
        game.id
        (fun g => { g with
          status := "lost",
          metadata := GameMeta.pokerMeta
            (drawReplace hand0 0 holdIndexes deck0).1
            (drawReplace hand0 0 holdIndexes deck0).2 holdIndexes })
        huniq (fun g0 => (by decide : ("lost" : String) ≠ "active"))
      simp only [vpDraw, if_neg hpkr, hpk2, hnone2]

/-- Witness for C10: a session with bet 40 and a no-pair hand
(2♥ 5♣ 7♦ 9♠ K♥), all five cards held: the draw reports the hand with
ranking `""` and win 0, the session ends `lost` with the lock released
and the balance untouched, and a second draw finds no active game. -/
theorem c10_draw_terminates_session_witness :
    (vpDraw
      { oneUserDB 100 40 with
        games := [{ id := 1, gameId := "vp1", userId := 1,
                    gameType := "videopoker", betAmount := 40,
                    winAmount := 0, status := "active",
                    metadata := GameMeta.pokerMeta
                      [{ rank := "2", suit := "Hearts" },
                       { rank := "5", suit := "Clubs" },
                       { rank := "7", suit := "Diamonds" },
                       { rank := "9", suit := "Spades" },
                       { rank := "K", suit := "Hearts" }]
                      [{ rank := "3", suit := "Clubs" }] [] }] }
      [0, 1, 2, 3, 4] (some "vp1") pkA 3).1 =
      VpDrawResult.drawOk
        [{ rank := "2", suit := "Hearts" }, { rank := "5", suit := "Clubs" },
         { rank := "7", suit := "Diamonds" },
         { rank := "9", suit := "Spades" }, { rank := "K", suit := "Hearts" }]
        "" 0 0 ∧
    getUserById
      (vpDraw
        { oneUserDB 100 40 with
          games := [{ id := 1, gameId := "vp1", userId := 1,
                      gameType := "videopoker", betAmount := 40,
                      winAmount := 0, status := "active",
                      metadata := GameMeta.pokerMeta
                        [{ rank := "2", suit := "Hearts" },
                         { rank := "5", suit := "Clubs" },
                         { rank := "7", suit := "Diamonds" },
                         { rank := "9", suit := "Spades" },
                         { rank := "K", suit := "Hearts" }]
                        [{ rank := "3", suit := "Clubs" }] [] }] }
        [0, 1, 2, 3, 4] (some "vp1") pkA 3).2.users 1 =
      some { id := 1, publicKey := pkA, balance := 100,
             lockedBalance := 40 - 40 } ∧
    vpDraw
      (vpDraw
        { oneUserDB 100 40 with
          games := [{ id := 1, gameId := "vp1", userId := 1,
                      gameType := "videopoker", betAmount := 40,
                      winAmount := 0, status := "active",
                      metadata := GameMeta.pokerMeta
                        [{ rank := "2", suit := "Hearts" },
                         { rank := "5", suit := "Clubs" },
                         { rank := "7", suit := "Diamonds" },
                         { rank := "9", suit := "Spades" },
                         { rank := "K", suit := "Hearts" }]
                        [{ rank := "3", suit := "Clubs" }] [] }] }
        [0, 1, 2, 3, 4] (some "vp1") pkA 3).2 [] (some "vp1") pkA 4 =
      (VpDrawResult.gameNotFound,
        (vpDraw
          { oneUserDB 100 40 with
            games := [{ id := 1, gameId := "vp1", userId := 1,
                        gameType := "videopoker", betAmount := 40,
                        winAmount := 0, status := "active",
                        metadata := GameMeta.pokerMeta
                          [{ rank := "2", suit := "Hearts" },
                           { rank := "5", suit := "Clubs" },
                           { rank := "7", suit := "Diamonds" },
                           { rank := "9", suit := "Spades" },
                           { rank := "K", suit := "Hearts" }]
                          [{ rank := "3", suit := "Clubs" }] [] }] }
          [0, 1, 2, 3, 4] (some "vp1") pkA 3).2) := by
  have h := c10_draw_terminates_session
    { oneUserDB 100 40 with
      games := [{ id := 1, gameId := "vp1", userId := 1,
                  gameType := "videopoker", betAmount := 40,
                  winAmount := 0, status := "active",
                  metadata := GameMeta.pokerMeta
                    [{ rank := "2", suit := "Hearts" },
                     { rank := "5", suit := "Clubs" },
                     { rank := "7", suit := "Diamonds" },
                     { rank := "9", suit := "Spades" },
                     { rank := "K", suit := "Hearts" }]
                    [{ rank := "3", suit := "Clubs" }] [] }] }
    [0, 1, 2, 3, 4] "vp1" pkA 3
    { id := 1, publicKey := pkA, balance := 100, lockedBalance := 40 }
    { id := 1, gameId := "vp1", userId := 1, gameType := "videopoker",
      betAmount := 40, winAmount := 0, status := "active",
      metadata := GameMeta.pokerMeta
        [{ rank := "2", suit := "Hearts" }, { rank := "5", suit := "Clubs" },
         { rank := "7", suit := "Diamonds" },
         { rank := "9", suit := "Spades" }, { rank := "K", suit := "Hearts" }]
        [{ rank := "3", suit := "Clubs" }] [] }
    [{ rank := "2", suit := "Hearts" }, { rank := "5", suit := "Clubs" },
     { rank := "7", suit := "Diamonds" },
     { rank := "9", suit := "Spades" }, { rank := "K", suit := "Hearts" }]
    [{ rank := "3", suit := "Clubs" }] []
    (by decide) rfl rfl rfl rfl
    (by
      intro g0 hg0 hgid
      rw [List.mem_singleton] at hg0
      subst hg0
      rfl)
    (by norm_num)
  have hMU : (evaluateHand
      (drawReplace
        [{ rank := "2", suit := "Hearts" }, { rank := "5", suit := "Clubs" },
         { rank := "7", suit := "Diamonds" },
         { rank := "9", suit := "Spades" }, { rank := "K", suit := "Hearts" }]
        0 [0, 1, 2, 3, 4] [{ rank := "3", suit := "Clubs" }]).1).2 = 0 := by
    decide
  refine ⟨?_, ?_, ?_⟩
  · rw [h.1]
    decide
  · rw [h.2.2.1]
    norm_num [hMU]
  · exact h.2.2.2.2 [] 4

end Casino
